import Mathlib

/-!
Verification development for the `modelsee` model-builder pipeline
(`src/backend/ml_model_builder.py`, `src/backend/ml_layers/*.py`,
`src/backend/ml_converters/tensorflow_converter.py`).

The builder manipulates dynamically typed Python dictionaries, so the
embedding works over an explicit type `PyVal` of Python runtime values
(ints, floats, bools, strings, lists, tuples, `None`).  Python operations
that can raise (`//`, `+` on mixed sequence kinds, comparisons between
incompatible types, indexing) are embedded as `Except String _` with the
raised exception's message as the error string; `Except.error` corresponds
to a raised Python exception propagating out of the translated code.
Floats are modelled as exact rationals, which is faithful for the decimal
literals appearing in the source's constraint tables.
-/

namespace Modelsee

/-- Python runtime values as they occur in the builder's configuration
dictionaries.  Lists and tuples are distinguished because the source mixes
them (declared input shapes arrive as JSON lists, computed shapes are
tuples) and Python `+` does not concatenate across the two kinds. -/
inductive PyVal where
  | int (n : Int)
  | float (q : Rat)
  | bool (b : Bool)
  | str (s : String)
  | list (xs : List PyVal)
  | tuple (xs : List PyVal)
  | none

/-- Python truthiness (`bool(v)`): `None`, `0`, `0.0`, `False`, `""` and
empty sequences are falsy. -/
def PyVal.pyTruthy : PyVal → Bool
  | .int n => n != 0
  | .float q => q != 0
  | .bool b => b
  | .str s => !s.isEmpty
  | .list xs => !xs.isEmpty
  | .tuple xs => !xs.isEmpty
  | .none => false

/-- The Python type name of a value, as it appears in `TypeError` messages. -/
def PyVal.typeName : PyVal → String
  | .int _ => "int"
  | .float _ => "float"
  | .bool _ => "bool"
  | .str _ => "str"
  | .list _ => "list"
  | .tuple _ => "tuple"
  | .none => "NoneType"

/-- Numeric view used by Python arithmetic and comparisons: `bool` is an
`int` subtype (`True == 1`, `False == 0`). -/
def PyVal.toNum : PyVal → Option Rat
  | .int n => Option.some (n : Rat)
  | .float q => Option.some q
  | .bool b => Option.some (if b then 1 else 0)
  | _ => Option.none

/-- Whether the value is of Python type `int` (including `bool`, an `int`
subclass), carrying its integer value. -/
def PyVal.toIntLike : PyVal → Option Int
  | .int n => Option.some n
  | .bool b => Option.some (if b then 1 else 0)
  | _ => Option.none

/-- Python `==` as used by the builder (`in` membership tests, comparisons
against literals).  Numeric values compare across `int`/`float`/`bool`;
sequences compare pointwise within the same kind; everything else is
equality of kind and payload.  Python `==` never raises here. -/
def PyVal.pyEq : PyVal → PyVal → Bool
  | .str a, .str b => a = b
  | .none, .none => true
  | .list xs, .list ys => pyEqList xs ys
  | .tuple xs, .tuple ys => pyEqList xs ys
  | a, b =>
    match a.toNum, b.toNum with
    | Option.some x, Option.some y => x = y
    | _, _ => false
where
  /-- Pointwise `==` on Python sequences. -/
  pyEqList : List PyVal → List PyVal → Bool
  | [], [] => true
  | x :: xs, y :: ys => pyEq x y && pyEqList xs ys
  | _, _ => false

/-- Python `a >= b`.  Numbers compare numerically, strings
lexicographically; any other combination raises `TypeError`. -/
def pyGe (a b : PyVal) : Except String Bool :=
  match a.toNum, b.toNum with
  | Option.some x, Option.some y => Except.ok (y ≤ x)
  | _, _ =>
    match a, b with
    | .str x, .str y => Except.ok (y ≤ x)
    | _, _ =>
      Except.error ("\x27>=\x27 not supported between instances of \x27" ++
        a.typeName ++ "\x27 and \x27" ++ b.typeName ++ "\x27")

/-- Python `a <= b`. -/
def pyLe (a b : PyVal) : Except String Bool :=
  match a.toNum, b.toNum with
  | Option.some x, Option.some y => Except.ok (x ≤ y)
  | _, _ =>
    match a, b with
    | .str x, .str y => Except.ok (x ≤ y)
    | _, _ =>
      Except.error ("\x27<=\x27 not supported between instances of \x27" ++
        a.typeName ++ "\x27 and \x27" ++ b.typeName ++ "\x27")

/-- Python `len(v)` for sequences; other values raise `TypeError`. -/
def pyLen : PyVal → Except String Nat
  | .list xs => Except.ok xs.length
  | .tuple xs => Except.ok xs.length
  | .str s => Except.ok s.length
  | v => Except.error ("object of type \x27" ++ v.typeName ++ "\x27 has no len()")

/-- The elements of a Python sequence (used for tuple unpacking and
iteration); a string iterates over one-character strings. -/
def PyVal.elems : PyVal → Option (List PyVal)
  | .list xs => Option.some xs
  | .tuple xs => Option.some xs
  | .str s => Option.some (s.toList.map fun c => PyVal.str (String.singleton c))
  | _ => Option.none

/-- Python `v[i]` for a nonnegative index. -/
def pyIndex (v : PyVal) (i : Nat) : Except String PyVal :=
  match v.elems with
  | Option.some xs =>
    match xs.get? i with
    | Option.some x => Except.ok x
    | Option.none => Except.error "index out of range"
  | Option.none =>
    Except.error ("\x27" ++ v.typeName ++ "\x27 object is not subscriptable")

/-- Python `v[-1]`. -/
def pyIndexLast (v : PyVal) : Except String PyVal :=
  match v.elems with
  | Option.some xs =>
    match xs.getLast? with
    | Option.some x => Except.ok x
    | Option.none => Except.error "index out of range"
  | Option.none =>
    Except.error ("\x27" ++ v.typeName ++ "\x27 object is not subscriptable")

/-- Python `v[:-1]` on a sequence (keeps the sequence kind). -/
def pySliceDropLast : PyVal → Except String PyVal
  | .list xs => Except.ok (PyVal.list xs.dropLast)
  | .tuple xs => Except.ok (PyVal.tuple xs.dropLast)
  | .str s => Except.ok (PyVal.str (String.mk s.toList.dropLast))
  | v => Except.error ("\x27" ++ v.typeName ++ "\x27 object is not subscriptable")

/-- Python `v[1:]` on a sequence (keeps the sequence kind). -/
def pySliceFromOne : PyVal → Except String PyVal
  | .list xs => Except.ok (PyVal.list (xs.drop 1))
  | .tuple xs => Except.ok (PyVal.tuple (xs.drop 1))
  | .str s => Except.ok (PyVal.str (String.mk (s.toList.drop 1)))
  | v => Except.error ("\x27" ++ v.typeName ++ "\x27 object is not subscriptable")

/-- Result kind of Python numeric addition/multiplication: `int` unless a
`float` is involved. -/
def numResult (a b : PyVal) (q : Rat) : PyVal :=
  match a, b with
  | .float _, _ => PyVal.float q
  | _, .float _ => PyVal.float q
  | _, _ => PyVal.int q.num

/-- Python `a + b`: numeric addition, or concatenation of sequences of the
same kind.  Mixing a list with a tuple raises the `TypeError` the CPython
interpreter produces. -/
def pyAdd (a b : PyVal) : Except String PyVal :=
  match a.toIntLike, b.toIntLike with
  | Option.some x, Option.some y => Except.ok (PyVal.int (x + y))
  | _, _ =>
  match a.toNum, b.toNum with
  | Option.some x, Option.some y => Except.ok (numResult a b (x + y))
  | _, _ =>
    match a, b with
    | .str x, .str y => Except.ok (PyVal.str (x ++ y))
    | .list xs, .list ys => Except.ok (PyVal.list (xs ++ ys))
    | .tuple xs, .tuple ys => Except.ok (PyVal.tuple (xs ++ ys))
    | .list _, v =>
      Except.error ("can only concatenate list (not \"" ++ v.typeName ++
        "\") to list")
    | .tuple _, v =>
      Except.error ("can only concatenate tuple (not \"" ++ v.typeName ++
        "\") to tuple")
    | .str _, v =>
      Except.error ("can only concatenate str (not \"" ++ v.typeName ++
        "\") to str")
    | x, y =>
      Except.error ("unsupported operand type(s) for +: \x27" ++ x.typeName ++
        "\x27 and \x27" ++ y.typeName ++ "\x27")

/-- Python `a * b`: numeric multiplication, or sequence repetition with an
`int`. -/
def pyMul (a b : PyVal) : Except String PyVal :=
  match a.toIntLike, b.toIntLike with
  | Option.some x, Option.some y => Except.ok (PyVal.int (x * y))
  | _, _ =>
  match a.toNum, b.toNum with
  | Option.some x, Option.some y => Except.ok (numResult a b (x * y))
  | _, _ =>
    match a, b.toIntLike with
    | .str s, Option.some n =>
      Except.ok (PyVal.str (String.join (List.replicate n.toNat s)))
    | .list xs, Option.some n =>
      Except.ok (PyVal.list (List.flatten (List.replicate n.toNat xs)))
    | _, _ =>
      match a.toIntLike, b with
      | Option.some n, .str s =>
        Except.ok (PyVal.str (String.join (List.replicate n.toNat s)))
      | Option.some n, .list xs =>
        Except.ok (PyVal.list (List.flatten (List.replicate n.toNat xs)))
      | _, _ =>
        Except.error ("unsupported operand type(s) for *: \x27" ++ a.typeName ++
          "\x27 and \x27" ++ b.typeName ++ "\x27")

/-- Python `a - b` (numeric only, as used by shape arithmetic). -/
def pySub (a b : PyVal) : Except String PyVal :=
  match a.toIntLike, b.toIntLike with
  | Option.some x, Option.some y => Except.ok (PyVal.int (x - y))
  | _, _ =>
  match a.toNum, b.toNum with
  | Option.some x, Option.some y => Except.ok (numResult a b (x - y))
  | _, _ =>
    Except.error ("unsupported operand type(s) for -: \x27" ++ a.typeName ++
      "\x27 and \x27" ++ b.typeName ++ "\x27")

/-- Python floor division `a // b`: floor semantics on numbers (`Int.fdiv`
for ints), `ZeroDivisionError` on a zero divisor, `TypeError` otherwise. -/
def pyFloorDiv (a b : PyVal) : Except String PyVal :=
  match a.toIntLike, b.toIntLike with
  | Option.some x, Option.some y =>
    if y = 0 then Except.error "integer division or modulo by zero"
    else Except.ok (PyVal.int (Int.fdiv x y))
  | _, _ =>
    match a.toNum, b.toNum with
    | Option.some x, Option.some y =>
      if y = 0 then Except.error "float floor division by zero"
      else Except.ok (PyVal.float ((⌊x / y⌋ : Int) : Rat))
    | _, _ =>
      Except.error ("unsupported operand type(s) for //: \x27" ++ a.typeName ++
        "\x27 and \x27" ++ b.typeName ++ "\x27")

/-- Decimal rendering of a rational float value (used by `repr`/`str` of
Python floats in generated code and messages).  Denominators dividing a
power of ten render exactly; the integral case renders with a trailing
`.0` as Python does. -/
def floatRepr (q : Rat) : String :=
  let sign := if q < 0 then "-" else ""
  let a : Rat := |q|
  let ip : Nat := a.floor.toNat
  let frac : Rat := a - (ip : Rat)
  let digits : Nat → Rat → String := fun fuel f => Id.run do
    let mut out := ""
    let mut f := f
    let mut fuel := fuel
    while fuel > 0 && f ≠ 0 do
      let f10 := f * 10
      let d : Nat := f10.floor.toNat
      out := out ++ toString d
      f := f10 - (d : Rat)
      fuel := fuel - 1
    return out
  if frac = 0 then sign ++ toString ip ++ ".0"
  else sign ++ toString ip ++ "." ++ digits 17 frac

mutual

/-- Python `str(v)`: strings render unquoted, everything else as `repr`. -/
def PyVal.pyStr : PyVal → String
  | .str s => s
  | v => PyVal.reprPy v

/-- Python `repr(v)`, as produced inside f-string interpolations of
container values. -/
def PyVal.reprPy : PyVal → String
  | .int n => toString n
  | .float q => floatRepr q
  | .bool b => if b then "True" else "False"
  | .str s => "\x27" ++ s ++ "\x27"
  | .list xs => "[" ++ reprPyList xs ++ "]"
  | .tuple xs =>
    "(" ++ reprPyList xs ++ (if xs.length = 1 then ",)" else ")")
  | .none => "None"

/-- Comma-separated `repr`s of the elements of a container. -/
def reprPyList : List PyVal → String
  | [] => ""
  | [x] => PyVal.reprPy x
  | x :: xs => PyVal.reprPy x ++ ", " ++ reprPyList xs

end

/-- A parameter dictionary (`Dict[str, Any]`), in insertion order with
unique keys. -/
def Params := List (String × PyVal)

/-- Python `params.get(key, default)`. -/
def getParam (params : Params) (key : String) (default : PyVal) : PyVal :=
  match params.find? (fun kv => kv.1 = key) with
  | Option.some kv => kv.2
  | Option.none => default

/-- Python `key in params`. -/
def hasParam (params : Params) (key : String) : Bool :=
  params.any (fun kv => kv.1 = key)

/-- `LayerConfig` dataclass of `ml_layers/base_layer.py`. -/
structure LayerConfig where
  layerType : String
  layerId : String
  parameters : Params
  inputShape : PyVal := PyVal.none
  outputShape : PyVal := PyVal.none
  trainable : PyVal := PyVal.bool true
  name : Option String := Option.none

/-- `ValidationResult` dataclass of `ml_layers/base_layer.py`.  Note that
`isValid` is a stored field computed at construction time; the source
mutates `errors` after construction in some layer subclasses without
recomputing it. -/
structure ValidationResult where
  isValid : Bool
  errors : List String
  warnings : List String
  suggestions : List String
deriving DecidableEq

/-- A parameter constraint entry of a layer's `param_constraints` table
(`BaseLayer._check_constraint` distinguishes these kinds by the dict's
`type` key).  Range bounds are the Python objects of the source tables
(ints or floats). -/
inductive Constraint where
  | range (min max : Option PyVal)
  | choices (values : List PyVal)
  | ofType (value : String)
  | shape (length : Option Nat)

/-- `BaseLayer._check_constraint` (`base_layer.py:115`): raises whichever
`TypeError` the underlying comparison raises (e.g. for a range constraint
checked against a string). -/
def checkConstraint (value : PyVal) (c : Constraint) : Except String Bool :=
  match c with
  | .range min max => do
    let okMin ← match min with
      | Option.none => pure true
      | Option.some m => pyGe value m
    if !okMin then
      return false
    else
      match max with
      | Option.none => pure true
      | Option.some m => pyLe value m
  | .choices values => Except.ok (values.any (fun v => value.pyEq v))
  | .ofType expected =>
    Except.ok <|
      if expected = "bool" then
        match value with
        | .bool _ => true
        | _ => false
      else if expected = "int" then
        match value.toIntLike with
        | Option.some _ => true
        | Option.none => false
      else if expected = "float" then
        match value.toNum with
        | Option.some _ => true
        | Option.none => false
      else if expected = "str" then
        match value with
        | .str _ => true
        | _ => false
      else if expected = "list" then
        match value with
        | .list _ => true
        | _ => false
      else true
  | .shape length =>
    match value with
    | .list xs => Except.ok (match length with
        | Option.none => true
        | Option.some n => xs.length = n)
    | .tuple xs => Except.ok (match length with
        | Option.none => true
        | Option.some n => xs.length = n)
    | _ => Except.ok false

/-- Python `repr` of a constraint dict, as interpolated into the
constraint-violation error message. -/
def Constraint.reprPy : Constraint → String
  | .range min max =>
    let f : Option PyVal → String := fun o =>
      match o with
      | Option.none => "None"
      | Option.some v => v.reprPy
    "\x7b\x27type\x27: \x27range\x27, \x27min\x27: " ++ f min ++
      ", \x27max\x27: " ++ f max ++ "\x7d"
  | .choices values =>
    "\x7b\x27type\x27: \x27choices\x27, \x27values\x27: " ++
      (PyVal.list values).reprPy ++ "\x7d"
  | .ofType v =>
    "\x7b\x27type\x27: \x27type\x27, \x27value\x27: \x27" ++ v ++ "\x27\x7d"
  | .shape length =>
    "\x7b\x27type\x27: \x27shape\x27, \x27length\x27: " ++
      (match length with
       | Option.none => "None"
       | Option.some n => toString n) ++ "\x7d"

/-- `BaseLayer.validate_parameters` (`base_layer.py:84`): missing required
parameters, constraint checks (which may raise, propagating the
exception), then unknown-parameter warnings.  `is_valid` is fixed at
construction as `len(errors) == 0`. -/
def validateParameters (required : List String)
    (optional : List (String × PyVal))
    (constraints : List (String × Constraint))
    (params : Params) : Except String ValidationResult := do
  let requiredErrors := (required.filter (fun p => !hasParam params p)).map
    (fun p => s!"缺少必需参数: {p}")
  let constraintErrors ← params.foldlM (fun (acc : List String) kv => do
    match constraints.find? (fun c => c.1 = kv.1) with
    | Option.some c =>
      let ok ← checkConstraint kv.2 c.2
      if !ok then
        return acc ++ [s!"参数 {kv.1} 不满足约束: " ++ c.2.reprPy]
      else
        return acc
    | Option.none => return acc) []
  let errors := requiredErrors ++ constraintErrors
  let known := required ++ optional.map Prod.fst
  let warnings := (params.filter (fun kv => !known.contains kv.1)).map
    (fun kv => s!"未知参数: {kv.1}")
  return {
    isValid := errors.length = 0
    errors := errors
    warnings := warnings
    suggestions := []
  }

/-- Python `a > b` on numbers/strings; `TypeError` otherwise. -/
def pyGt (a b : PyVal) : Except String Bool :=
  match a.toNum, b.toNum with
  | Option.some x, Option.some y => Except.ok (y < x)
  | _, _ =>
    match a, b with
    | .str x, .str y => Except.ok (y < x)
    | _, _ =>
      Except.error ("\x27>\x27 not supported between instances of \x27" ++
        a.typeName ++ "\x27 and \x27" ++ b.typeName ++ "\x27")

/-- A layer implementation as registered in the catalog: the four methods
the builder pipeline calls on a `BaseLayer` subclass. -/
structure LayerImpl where
  validateConfig : LayerConfig → Except String ValidationResult
  calculateOutputShape : PyVal → LayerConfig → Except String PyVal
  generateTensorflowCode : LayerConfig → Bool → Except String String
  generatePytorchCode : LayerConfig → Nat → Except String (String × String)

/-! ### Dense layer (`basic_layers.py:8`) -/

def denseRequired : List String := ["units"]

def denseOptional : List (String × PyVal) :=
  [("activation", PyVal.str "linear"), ("use_bias", PyVal.bool true),
   ("kernel_initializer", PyVal.str "glorot_uniform"),
   ("bias_initializer", PyVal.str "zeros"),
   ("kernel_regularizer", PyVal.none), ("bias_regularizer", PyVal.none),
   ("activity_regularizer", PyVal.none)]

def denseConstraints : List (String × Constraint) :=
  [("units", Constraint.range (Option.some (PyVal.int 1))
      (Option.some (PyVal.int 10000))),
   ("activation", Constraint.choices
      ([ "linear", "relu", "sigmoid", "tanh", "softmax", "leaky_relu",
         "elu", "selu"].map PyVal.str)),
   ("use_bias", Constraint.ofType "bool")]

/-- `DenseLayer.validate_config`: shared parameter validation, then an
extra `units` check appended to the already-built result's error list
(without recomputing `is_valid`). -/
def denseValidateConfig (config : LayerConfig) : Except String ValidationResult := do
  let result ← validateParameters denseRequired denseOptional denseConstraints
    config.parameters
  if hasParam config.parameters "units" then
    let units := getParam config.parameters "units" PyVal.none
    let bad : Bool := match units.toIntLike with
      | Option.some n => decide (n ≤ 0)
      | Option.none => true
    if bad then
      return { result with errors := result.errors ++ ["units必须是正整数"] }
    else
      return result
  else
    return result

/-- `DenseLayer.calculate_output_shape`: `(units,)` for rank-1 input,
otherwise `input_shape[:-1] + (units,)` (Python `+`, which raises when the
input shape is a list, since `(units,)` is a tuple). -/
def denseCalculateOutputShape (inputShape : PyVal) (config : LayerConfig) :
    Except String PyVal := do
  let units := getParam config.parameters "units" (PyVal.int 128)
  let len ← pyLen inputShape
  if len = 1 then
    return PyVal.tuple [units]
  else do
    let front ← pySliceDropLast inputShape
    pyAdd front (PyVal.tuple [units])

/-- `DenseLayer.generate_tensorflow_code`. -/
def denseGenerateTensorflowCode (config : LayerConfig) (isFirstLayer : Bool) :
    Except String String := do
  let params := config.parameters
  let units := getParam params "units" (PyVal.int 128)
  let activation := getParam params "activation" (PyVal.str "linear")
  let useBias := getParam params "use_bias" (PyVal.bool true)
  let parts := [s!"layers.Dense({units.pyStr}"]
  let parts := if !activation.pyEq (PyVal.str "linear") then
      parts ++ ["activation=\x27" ++ activation.pyStr ++ "\x27"]
    else parts
  let parts := if !useBias.pyTruthy then parts ++ ["use_bias=False"] else parts
  let parts := if isFirstLayer && config.inputShape.pyTruthy then
      parts ++ [s!"input_shape={config.inputShape.pyStr}"]
    else parts
  return String.intercalate ", " parts ++ ")"

/-- `DenseLayer.generate_pytorch_code`. -/
def denseGeneratePytorchCode (config : LayerConfig) (layerIndex : Nat) :
    Except String (String × String) := do
  let params := config.parameters
  let units := getParam params "units" (PyVal.int 128)
  let useBias := getParam params "use_bias" (PyVal.bool true)
  let activation := getParam params "activation" (PyVal.str "linear")
  let inFeatures ← if config.inputShape.pyTruthy then
      (pyIndexLast config.inputShape).map PyVal.pyStr
    else pure "# 需要根据前一层计算"
  let definition :=
    s!"self.dense_{layerIndex} = nn.Linear({inFeatures}, {units.pyStr}, bias={useBias.pyStr})"
  let forward := s!"x = self.dense_{layerIndex}(x)"
  let forward := if !activation.pyEq (PyVal.str "linear") then
      if activation.pyEq (PyVal.str "relu") then
        forward ++ "\n        x = F.relu(x)"
      else if activation.pyEq (PyVal.str "sigmoid") then
        forward ++ "\n        x = torch.sigmoid(x)"
      else if activation.pyEq (PyVal.str "tanh") then
        forward ++ "\n        x = torch.tanh(x)"
      else if activation.pyEq (PyVal.str "softmax") then
        forward ++ "\n        x = F.softmax(x, dim=1)"
      else forward
    else forward
  return (definition, forward)

def denseLayer : LayerImpl :=
  ⟨denseValidateConfig, denseCalculateOutputShape, denseGenerateTensorflowCode,
   denseGeneratePytorchCode⟩

/-! ### Conv2D layer (`basic_layers.py:100`) -/

def conv2dRequired : List String := ["filters", "kernel_size"]

def conv2dOptional : List (String × PyVal) :=
  [("strides", PyVal.list [PyVal.int 1, PyVal.int 1]),
   ("padding", PyVal.str "valid"), ("activation", PyVal.str "linear"),
   ("use_bias", PyVal.bool true),
   ("kernel_initializer", PyVal.str "glorot_uniform"),
   ("bias_initializer", PyVal.str "zeros"),
   ("dilation_rate", PyVal.list [PyVal.int 1, PyVal.int 1])]

def conv2dConstraints : List (String × Constraint) :=
  [("filters", Constraint.range (Option.some (PyVal.int 1))
      (Option.some (PyVal.int 2048))),
   ("kernel_size", Constraint.shape (Option.some 2)),
   ("strides", Constraint.shape (Option.some 2)),
   ("padding", Constraint.choices ([ "valid", "same"].map PyVal.str)),
   ("activation", Constraint.choices
      ([ "linear", "relu", "sigmoid", "tanh", "leaky_relu", "elu"].map PyVal.str))]

/-- `Conv2DLayer.validate_config`: shared validation plus the explicit
`kernel_size` checks (appended without recomputing `is_valid`). -/
def conv2dValidateConfig (config : LayerConfig) : Except String ValidationResult := do
  let result ← validateParameters conv2dRequired conv2dOptional conv2dConstraints
    config.parameters
  if hasParam config.parameters "kernel_size" then
    let ks := getParam config.parameters "kernel_size" PyVal.none
    match ks with
    | .list xs | .tuple xs =>
      if xs.length ≠ 2 then
        return { result with
          errors := result.errors ++ ["kernel_size必须是长度为2的列表或元组"] }
      else do
        let anyBad ← xs.anyM (fun k => pyLe k (PyVal.int 0))
        if anyBad then
          return { result with errors := result.errors ++ ["kernel_size的值必须大于0"] }
        else
          return result
    | _ =>
      return { result with
        errors := result.errors ++ ["kernel_size必须是长度为2的列表或元组"] }
  else
    return result

/-- `Conv2DLayer.calculate_output_shape`: requires a rank-4 input;
`same`-padding uses plain floor division of the spatial extents by the
strides, `valid`-padding uses `(extent - kernel) // stride + 1`. -/
def conv2dCalculateOutputShape (inputShape : PyVal) (config : LayerConfig) :
    Except String PyVal := do
  let len ← pyLen inputShape
  if len ≠ 4 then
    Except.error "Conv2D输入必须是4维: (batch, height, width, channels)"
  else
    match inputShape.elems with
    | Option.some [batch, height, width, _ch] => do
      let params := config.parameters
      let filters := getParam params "filters" (PyVal.int 32)
      let kernelSize := getParam params "kernel_size" (PyVal.list [PyVal.int 3, PyVal.int 3])
      let strides := getParam params "strides" (PyVal.list [PyVal.int 1, PyVal.int 1])
      let padding := getParam params "padding" (PyVal.str "valid")
      if padding.pyEq (PyVal.str "same") then do
        let outHeight ← pyFloorDiv height (← pyIndex strides 0)
        let outWidth ← pyFloorDiv width (← pyIndex strides 1)
        return PyVal.tuple [batch, outHeight, outWidth, filters]
      else do
        let dh ← pySub height (← pyIndex kernelSize 0)
        let outHeight ← pyAdd (← pyFloorDiv dh (← pyIndex strides 0)) (PyVal.int 1)
        let dw ← pySub width (← pyIndex kernelSize 1)
        let outWidth ← pyAdd (← pyFloorDiv dw (← pyIndex strides 1)) (PyVal.int 1)
        return PyVal.tuple [batch, outHeight, outWidth, filters]
    | _ => Except.error "Conv2D输入必须是4维: (batch, height, width, channels)"

/-- `Conv2DLayer.generate_tensorflow_code`. -/
def conv2dGenerateTensorflowCode (config : LayerConfig) (isFirstLayer : Bool) :
    Except String String := do
  let params := config.parameters
  let filters := getParam params "filters" (PyVal.int 32)
  let kernelSize := getParam params "kernel_size" (PyVal.list [PyVal.int 3, PyVal.int 3])
  let strides := getParam params "strides" (PyVal.list [PyVal.int 1, PyVal.int 1])
  let padding := getParam params "padding" (PyVal.str "valid")
  let activation := getParam params "activation" (PyVal.str "linear")
  let parts := [s!"layers.Conv2D({filters.pyStr}, {kernelSize.pyStr}"]
  let parts := if !strides.pyEq (PyVal.list [PyVal.int 1, PyVal.int 1]) then
      parts ++ [s!"strides={strides.pyStr}"]
    else parts
  let parts := if !padding.pyEq (PyVal.str "valid") then
      parts ++ ["padding=\x27" ++ padding.pyStr ++ "\x27"]
    else parts
  let parts := if !activation.pyEq (PyVal.str "linear") then
      parts ++ ["activation=\x27" ++ activation.pyStr ++ "\x27"]
    else parts
  let parts ← if isFirstLayer && config.inputShape.pyTruthy then do
      let tail ← pySliceFromOne config.inputShape
      pure (parts ++ [s!"input_shape={tail.pyStr}"])
    else pure parts
  return String.intercalate ", " parts ++ ")"

/-- `Conv2DLayer.generate_pytorch_code`. -/
def conv2dGeneratePytorchCode (config : LayerConfig) (layerIndex : Nat) :
    Except String (String × String) := do
  let params := config.parameters
  let filters := getParam params "filters" (PyVal.int 32)
  let kernelSize := getParam params "kernel_size" (PyVal.list [PyVal.int 3, PyVal.int 3])
  let strides := getParam params "strides" (PyVal.list [PyVal.int 1, PyVal.int 1])
  let padding := getParam params "padding" (PyVal.str "valid")
  let activation := getParam params "activation" (PyVal.str "linear")
  let inChannels ← if config.inputShape.pyTruthy then
      (pyIndexLast config.inputShape).map PyVal.pyStr
    else pure "# 需要根据前一层计算"
  let paddingValue := if padding.pyEq (PyVal.str "same") then "same" else "0"
  let k0 ← pyIndex kernelSize 0
  let s0 ← pyIndex strides 0
  let definition :=
    s!"self.conv2d_{layerIndex} = nn.Conv2d({inChannels}, {filters.pyStr}, " ++
    s!"{k0.pyStr}, stride={s0.pyStr}, padding={paddingValue})"
  let forward := s!"x = self.conv2d_{layerIndex}(x)"
  let forward := if !activation.pyEq (PyVal.str "linear") then
      if activation.pyEq (PyVal.str "relu") then
        forward ++ "\n        x = F.relu(x)"
      else if activation.pyEq (PyVal.str "sigmoid") then
        forward ++ "\n        x = torch.sigmoid(x)"
      else if activation.pyEq (PyVal.str "tanh") then
        forward ++ "\n        x = torch.tanh(x)"
      else forward
    else forward
  return (definition, forward)

def conv2dLayer : LayerImpl :=
  ⟨conv2dValidateConfig, conv2dCalculateOutputShape,
   conv2dGenerateTensorflowCode, conv2dGeneratePytorchCode⟩

/-! ### MaxPool2D / AvgPool2D layers (`basic_layers.py:222` and `:291`) -/

def poolRequired : List String := ["pool_size"]

def poolOptional : List (String × PyVal) :=
  [("strides", PyVal.none), ("padding", PyVal.str "valid")]

def poolConstraints : List (String × Constraint) :=
  [("pool_size", Constraint.shape (Option.some 2)),
   ("padding", Constraint.choices ([ "valid", "same"].map PyVal.str))]

/-- `MaxPool2DLayer.validate_config` / `AvgPool2DLayer.validate_config`:
just the shared parameter validation. -/
def poolValidateConfig (config : LayerConfig) : Except String ValidationResult :=
  validateParameters poolRequired poolOptional poolConstraints config.parameters

/-- Shared body of `MaxPool2DLayer.calculate_output_shape` and
`AvgPool2DLayer.calculate_output_shape` (identical up to the error
message): strides default to the pool size, channels are preserved. -/
def pool2dCalculateOutputShape (rankMsg : String) (inputShape : PyVal)
    (config : LayerConfig) : Except String PyVal := do
  let len ← pyLen inputShape
  if len ≠ 4 then
    Except.error rankMsg
  else
    match inputShape.elems with
    | Option.some [batch, height, width, channels] => do
      let params := config.parameters
      let poolSize := getParam params "pool_size" (PyVal.list [PyVal.int 2, PyVal.int 2])
      let strides := getParam params "strides" poolSize
      let padding := getParam params "padding" (PyVal.str "valid")
      if padding.pyEq (PyVal.str "same") then do
        let outHeight ← pyFloorDiv height (← pyIndex strides 0)
        let outWidth ← pyFloorDiv width (← pyIndex strides 1)
        return PyVal.tuple [batch, outHeight, outWidth, channels]
      else do
        let dh ← pySub height (← pyIndex poolSize 0)
        let outHeight ← pyAdd (← pyFloorDiv dh (← pyIndex strides 0)) (PyVal.int 1)
        let dw ← pySub width (← pyIndex poolSize 1)
        let outWidth ← pyAdd (← pyFloorDiv dw (← pyIndex strides 1)) (PyVal.int 1)
        return PyVal.tuple [batch, outHeight, outWidth, channels]
    | _ => Except.error rankMsg

/-- Shared body of the two pooling TensorFlow generators. -/
def pool2dGenerateTensorflowCode (ctor : String) (config : LayerConfig)
    (_isFirstLayer : Bool) : Except String String := do
  let params := config.parameters
  let poolSize := getParam params "pool_size" (PyVal.list [PyVal.int 2, PyVal.int 2])
  let strides := getParam params "strides" poolSize
  let padding := getParam params "padding" (PyVal.str "valid")
  let parts := [s!"layers.{ctor}({poolSize.pyStr}"]
  let parts := if !strides.pyEq poolSize then
      parts ++ [s!"strides={strides.pyStr}"]
    else parts
  let parts := if !padding.pyEq (PyVal.str "valid") then
      parts ++ ["padding=\x27" ++ padding.pyStr ++ "\x27"]
    else parts
  return String.intercalate ", " parts ++ ")"

/-- Shared body of the two pooling PyTorch generators. -/
def pool2dGeneratePytorchCode (attr ctor : String) (config : LayerConfig)
    (layerIndex : Nat) : Except String (String × String) := do
  let params := config.parameters
  let poolSize := getParam params "pool_size" (PyVal.list [PyVal.int 2, PyVal.int 2])
  let strides := getParam params "strides" poolSize
  let p0 ← pyIndex poolSize 0
  let s0 ← pyIndex strides 0
  let definition :=
    s!"self.{attr}_{layerIndex} = nn.{ctor}({p0.pyStr}, stride={s0.pyStr})"
  let forward := s!"x = self.{attr}_{layerIndex}(x)"
  return (definition, forward)

def maxpool2dLayer : LayerImpl :=
  ⟨poolValidateConfig, pool2dCalculateOutputShape "MaxPool2D输入必须是4维",
   pool2dGenerateTensorflowCode "MaxPooling2D",
   pool2dGeneratePytorchCode "maxpool" "MaxPool2d"⟩

def avgpool2dLayer : LayerImpl :=
  ⟨poolValidateConfig, pool2dCalculateOutputShape "AvgPool2D输入必须是4维",
   pool2dGenerateTensorflowCode "AveragePooling2D",
   pool2dGeneratePytorchCode "avgpool" "AvgPool2d"⟩

/-! ### Flatten layer (`basic_layers.py:357`) -/

/-- `FlattenLayer.validate_config`: unconditional success. -/
def flattenValidateConfig (_config : LayerConfig) : Except String ValidationResult :=
  Except.ok ⟨true, [], [], []⟩

/-- `FlattenLayer.calculate_output_shape`: inputs of rank below 2 pass
through unchanged; otherwise all non-batch dimensions are multiplied
together. -/
def flattenCalculateOutputShape (inputShape : PyVal) (_config : LayerConfig) :
    Except String PyVal := do
  let len ← pyLen inputShape
  if len < 2 then
    return inputShape
  else do
    let batchSize ← pyIndex inputShape 0
    let rest ← pySliceFromOne inputShape
    match rest.elems with
    | Option.some dims => do
      let flattenedSize ← dims.foldlM (fun acc dim => pyMul acc dim) (PyVal.int 1)
      return PyVal.tuple [batchSize, flattenedSize]
    | Option.none => Except.error "cannot iterate over flattened dimensions"

def flattenGenerateTensorflowCode (_config : LayerConfig) (_isFirstLayer : Bool) :
    Except String String :=
  Except.ok "layers.Flatten()"

def flattenGeneratePytorchCode (_config : LayerConfig) (_layerIndex : Nat) :
    Except String (String × String) :=
  Except.ok ("", "x = x.view(x.size(0), -1)  # Flatten")

def flattenLayer : LayerImpl :=
  ⟨flattenValidateConfig, flattenCalculateOutputShape,
   flattenGenerateTensorflowCode, flattenGeneratePytorchCode⟩

/-! ### LSTM / GRU layers (`advanced_layers.py:8` and `:109`) -/

def lstmRequired : List String := ["units"]

def lstmOptional : List (String × PyVal) :=
  [("activation", PyVal.str "tanh"), ("recurrent_activation", PyVal.str "sigmoid"),
   ("use_bias", PyVal.bool true), ("return_sequences", PyVal.bool false),
   ("return_state", PyVal.bool false), ("go_backwards", PyVal.bool false),
   ("stateful", PyVal.bool false), ("dropout", PyVal.float 0),
   ("recurrent_dropout", PyVal.float 0), ("bidirectional", PyVal.bool false)]

def lstmConstraints : List (String × Constraint) :=
  [("units", Constraint.range (Option.some (PyVal.int 1))
      (Option.some (PyVal.int 2048))),
   ("activation", Constraint.choices
      ([ "tanh", "sigmoid", "relu", "linear"].map PyVal.str)),
   ("dropout", Constraint.range (Option.some (PyVal.float 0))
      (Option.some (PyVal.float 1))),
   ("recurrent_dropout", Constraint.range (Option.some (PyVal.float 0))
      (Option.some (PyVal.float 1)))]

def gruConstraints : List (String × Constraint) :=
  [("units", Constraint.range (Option.some (PyVal.int 1))
      (Option.some (PyVal.int 2048))),
   ("activation", Constraint.choices
      ([ "tanh", "sigmoid", "relu", "linear"].map PyVal.str)),
   ("dropout", Constraint.range (Option.some (PyVal.float 0))
      (Option.some (PyVal.float 1)))]

def lstmValidateConfig (config : LayerConfig) : Except String ValidationResult :=
  validateParameters lstmRequired lstmOptional lstmConstraints config.parameters

def gruValidateConfig (config : LayerConfig) : Except String ValidationResult :=
  validateParameters lstmRequired lstmOptional gruConstraints config.parameters

/-- Shared body of `LSTMLayer.calculate_output_shape` and
`GRULayer.calculate_output_shape` (identical up to the rank error
message): requires a rank-3 input, doubles units when bidirectional,
keeps the time axis only when `return_sequences` is truthy. -/
def recurrentCalculateOutputShape (rankMsg : String) (inputShape : PyVal)
    (config : LayerConfig) : Except String PyVal := do
  let len ← pyLen inputShape
  if len ≠ 3 then
    Except.error rankMsg
  else
    match inputShape.elems with
    | Option.some [batch, timesteps, _feat] => do
      let params := config.parameters
      let units := getParam params "units" (PyVal.int 128)
      let returnSequences := getParam params "return_sequences" (PyVal.bool false)
      let bidirectional := getParam params "bidirectional" (PyVal.bool false)
      let units ← if bidirectional.pyTruthy then pyMul units (PyVal.int 2)
        else pure units
      if returnSequences.pyTruthy then
        return PyVal.tuple [batch, timesteps, units]
      else
        return PyVal.tuple [batch, units]
    | _ => Except.error rankMsg

/-- Shared body of the LSTM/GRU TensorFlow generators (`ctor` is `LSTM` or
`GRU`). -/
def recurrentGenerateTensorflowCode (ctor : String) (config : LayerConfig)
    (isFirstLayer : Bool) : Except String String := do
  let params := config.parameters
  let units := getParam params "units" (PyVal.int 128)
  let activation := getParam params "activation" (PyVal.str "tanh")
  let returnSequences := getParam params "return_sequences" (PyVal.bool false)
  let dropout := getParam params "dropout" (PyVal.float 0)
  let bidirectional := getParam params "bidirectional" (PyVal.bool false)
  let parts := [s!"layers.{ctor}({units.pyStr}"]
  let parts := if !activation.pyEq (PyVal.str "tanh") then
      parts ++ ["activation=\x27" ++ activation.pyStr ++ "\x27"]
    else parts
  let parts := if returnSequences.pyTruthy then
      parts ++ ["return_sequences=True"]
    else parts
  let parts ← do
    let gt ← pyGt dropout (PyVal.int 0)
    if gt then pure (parts ++ [s!"dropout={dropout.pyStr}"]) else pure parts
  let parts ← if isFirstLayer && config.inputShape.pyTruthy then do
      let tail ← pySliceFromOne config.inputShape
      pure (parts ++ [s!"input_shape={tail.pyStr}"])
    else pure parts
  let code := String.intercalate ", " parts ++ ")"
  if bidirectional.pyTruthy then
    return s!"layers.Bidirectional({code})"
  else
    return code

/-- Shared body of the LSTM/GRU PyTorch generators; the LSTM variant adds
trailing comments to the forward statements. -/
def recurrentGeneratePytorchCode (attr ctor : String) (withComments : Bool)
    (config : LayerConfig) (layerIndex : Nat) : Except String (String × String) := do
  let params := config.parameters
  let units := getParam params "units" (PyVal.int 128)
  let dropout := getParam params "dropout" (PyVal.float 0)
  let bidirectional := getParam params "bidirectional" (PyVal.bool false)
  let returnSequences := getParam params "return_sequences" (PyVal.bool false)
  let inputSize ← if config.inputShape.pyTruthy then
      (pyIndexLast config.inputShape).map PyVal.pyStr
    else pure "# 需要根据前一层计算"
  let definition :=
    s!"self.{attr}_{layerIndex} = nn.{ctor}({inputSize}, {units.pyStr}, " ++
    s!"batch_first=True, dropout={dropout.pyStr}, bidirectional={bidirectional.pyStr})"
  let forward := if returnSequences.pyTruthy then
      s!"x, _ = self.{attr}_{layerIndex}(x)" ++
        (if withComments then "  # 返回所有时间步" else "")
    else
      s!"x, _ = self.{attr}_{layerIndex}(x)\n" ++
      "        x = x[:, -1, :]" ++
        (if withComments then "  # 只取最后一个时间步" else "")
  return (definition, forward)

def lstmLayer : LayerImpl :=
  ⟨lstmValidateConfig,
   recurrentCalculateOutputShape "LSTM输入必须是3维: (batch, timesteps, features)",
   recurrentGenerateTensorflowCode "LSTM",
   recurrentGeneratePytorchCode "lstm" "LSTM" true⟩

def gruLayer : LayerImpl :=
  ⟨gruValidateConfig,
   recurrentCalculateOutputShape "GRU输入必须是3维: (batch, timesteps, features)",
   recurrentGenerateTensorflowCode "GRU",
   recurrentGeneratePytorchCode "gru" "GRU" false⟩

/-! ### BatchNormalization layer (`regularization_layers.py:39`) -/

def batchNormOptional : List (String × PyVal) :=
  [("axis", PyVal.int (-1)), ("momentum", PyVal.float (99/100)),
   ("epsilon", PyVal.float (1/1000)), ("center", PyVal.bool true),
   ("scale", PyVal.bool true), ("beta_initializer", PyVal.str "zeros"),
   ("gamma_initializer", PyVal.str "ones")]

def batchNormConstraints : List (String × Constraint) :=
  [("momentum", Constraint.range (Option.some (PyVal.float 0))
      (Option.some (PyVal.float 1))),
   ("epsilon", Constraint.range (Option.some (PyVal.float (1/100000000)))
      (Option.some (PyVal.float (1/100))))]

def batchNormValidateConfig (config : LayerConfig) : Except String ValidationResult :=
  validateParameters [] batchNormOptional batchNormConstraints config.parameters

/-- `BatchNormalizationLayer.calculate_output_shape`: identity. -/
def batchNormCalculateOutputShape (inputShape : PyVal) (_config : LayerConfig) :
    Except String PyVal :=
  Except.ok inputShape

/-- `BatchNormalizationLayer.generate_tensorflow_code`.  When any
non-default argument is present the parts are comma-joined onto the
opening `layers.BatchNormalization(` fragment, as in the source. -/
def batchNormGenerateTensorflowCode (config : LayerConfig) (_isFirstLayer : Bool) :
    Except String String := do
  let params := config.parameters
  let axis := getParam params "axis" (PyVal.int (-1))
  let momentum := getParam params "momentum" (PyVal.float (99/100))
  let epsilon := getParam params "epsilon" (PyVal.float (1/1000))
  let parts := ["layers.BatchNormalization("]
  let parts := if !axis.pyEq (PyVal.int (-1)) then
      parts ++ [s!"axis={axis.pyStr}"]
    else parts
  let parts := if !momentum.pyEq (PyVal.float (99/100)) then
      parts ++ [s!"momentum={momentum.pyStr}"]
    else parts
  let parts := if !epsilon.pyEq (PyVal.float (1/1000)) then
      parts ++ [s!"epsilon={epsilon.pyStr}"]
    else parts
  if parts.length > 1 then
    return String.intercalate ", " parts ++ ")"
  else
    return "layers.BatchNormalization()"

/-- `BatchNormalizationLayer.generate_pytorch_code`. -/
def batchNormGeneratePytorchCode (config : LayerConfig) (layerIndex : Nat) :
    Except String (String × String) := do
  let params := config.parameters
  let momentum := getParam params "momentum" (PyVal.float (99/100))
  let epsilon := getParam params "epsilon" (PyVal.float (1/1000))
  let numFeatures ← if config.inputShape.pyTruthy then
      (pyIndexLast config.inputShape).map PyVal.pyStr
    else pure "# 需要根据前一层计算"
  let oneMinusMomentum ← pySub (PyVal.int 1) momentum
  let definition :=
    s!"self.batchnorm_{layerIndex} = nn.BatchNorm1d({numFeatures}, " ++
    s!"eps={epsilon.pyStr}, momentum={oneMinusMomentum.pyStr})"
  let forward := s!"x = self.batchnorm_{layerIndex}(x)"
  return (definition, forward)

def batchNormLayer : LayerImpl :=
  ⟨batchNormValidateConfig, batchNormCalculateOutputShape,
   batchNormGenerateTensorflowCode, batchNormGeneratePytorchCode⟩

/-- `LayerRegistry.get_layer` for the catalog entries this development
reasons about; any other type id resolves to `none` and is reported as an
unknown layer type by the pipeline, exactly as the source reports ids that
were never registered. -/
def getLayer : String → Option LayerImpl
  | "dense" => Option.some denseLayer
  | "conv2d" => Option.some conv2dLayer
  | "maxpool2d" => Option.some maxpool2dLayer
  | "avgpool2d" => Option.some avgpool2dLayer
  | "flatten" => Option.some flattenLayer
  | "lstm" => Option.some lstmLayer
  | "gru" => Option.some gruLayer
  | "batch_normalization" => Option.some batchNormLayer
  | _ => Option.none

/-! ### Builder pipeline (`ml_model_builder.py`) -/

/-- One entry of the caller-supplied `layers` list (a JSON dictionary);
`Option.none` fields model absent keys, the corresponding `.get` defaults
are applied at the use sites exactly where the source applies them. -/
structure LayerData where
  type : Option String := Option.none
  id : Option String := Option.none
  parameters : Option Params := Option.none
  trainable : Option PyVal := Option.none
  name : Option String := Option.none

/-- The caller-supplied model configuration dictionary.  `connections` is
carried because the external interface supplies it, but the builder never
reads it. -/
structure ModelConfig where
  layers : Option (List LayerData) := Option.none
  inputShape : Option PyVal := Option.none
  name : Option String := Option.none
  connections : List (String × String) := []

/-- The layer-index/type tag put in front of per-layer diagnostics:
`第{i+1}层({layer_type}): {msg}`. -/
def tagLayer (i : Nat) (layerType msg : String) : String :=
  s!"第{i+1}层({layerType}): {msg}"

/-- The mutable local state of the validation loop in
`ModelBuilder.validate_model_config`. -/
structure LoopState where
  errors : List String
  warnings : List String
  suggestions : List String
  currentShape : PyVal

/-- The `LayerConfig` object built for layer `i` inside the pipeline
loops. -/
def mkLayerConfig (i : Nat) (layerType : String) (ld : LayerData)
    (currentShape : PyVal) : LayerConfig :=
  { layerType := layerType
    layerId := ld.id.getD s!"layer_{i}"
    parameters := ld.parameters.getD []
    inputShape := currentShape
    trainable := ld.trainable.getD (PyVal.bool true)
    name := ld.name }

/-- One iteration of the `for i, layer_data in enumerate(layers)` loop of
`validate_model_config`: missing/unknown types produce an error and skip
the rest; otherwise the layer is validated (errors are copied only when
the per-layer result is flagged invalid, warnings and suggestions always)
and, when a shape is being tracked, the output shape is computed with
exceptions downgraded to a per-layer shape error. -/
def validateLayerStep (i : Nat) (ld : LayerData) (st : LoopState) :
    Except String LoopState :=
  match ld.type with
  | Option.none =>
    Except.ok { st with errors := st.errors ++ [s!"第{i+1}层缺少\x27type\x27字段"] }
  | Option.some layerType =>
    match getLayer layerType with
    | Option.none =>
      Except.ok { st with
        errors := st.errors ++ [s!"第{i+1}层: 未知的层类型 \x27{layerType}\x27"] }
    | Option.some layerImpl => do
      let layerConfig := mkLayerConfig i layerType ld st.currentShape
      let vr ← layerImpl.validateConfig layerConfig
      let st := { st with
        errors := st.errors ++
          (if !vr.isValid then vr.errors.map (tagLayer i layerType) else []),
        warnings := st.warnings ++ vr.warnings.map (tagLayer i layerType),
        suggestions := st.suggestions ++ vr.suggestions.map (tagLayer i layerType) }
      if st.currentShape.pyTruthy then
        match layerImpl.calculateOutputShape st.currentShape layerConfig with
        | Except.ok s => Except.ok { st with currentShape := s }
        | Except.error e =>
          Except.ok { st with
            errors := st.errors ++ [s!"第{i+1}层({layerType}): 形状计算错误 - {e}"],
            currentShape := PyVal.none }
      else
        Except.ok st

/-- The whole validation loop, threading the state through the layers. -/
def validateLayersGo (i : Nat) (lds : List LayerData) (st : LoopState) :
    Except String LoopState :=
  match lds with
  | [] => Except.ok st
  | ld :: rest => do
    let st' ← validateLayerStep i ld st
    validateLayersGo (i + 1) rest st'

/-- `ModelBuilder.validate_model_config` (`ml_model_builder.py:37`).  An
`Except.error` result models an exception escaping the method (the source
has no handler around the per-layer parameter validation). -/
def validateModelConfig (mc : ModelConfig) : Except String ValidationResult :=
  match mc.layers with
  | Option.none =>
    Except.ok ⟨false, ["模型配置必须包含\x27layers\x27字段"], [], []⟩
  | Option.some layers =>
    if layers.length = 0 then
      Except.ok ⟨false, ["模型必须至少包含一个层"], [], []⟩
    else do
      let st ← validateLayersGo 0 layers
        ⟨[], [], [], mc.inputShape.getD PyVal.none⟩
      let warnings :=
        if st.errors.isEmpty && !st.currentShape.pyTruthy then
          st.warnings ++ ["无法确定最终输出形状"]
        else st.warnings
      let lastLayerType := match layers.getLast? with
        | Option.some ld => ld.type.getD ""
        | Option.none => ""
      let suggestions :=
        if st.errors.isEmpty && !(([ "dense", "softmax", "sigmoid"] : List String).contains lastLayerType) then
          st.suggestions ++ ["建议在模型末尾添加适当的输出层"]
        else st.suggestions
      return ⟨st.errors.length = 0, st.errors, warnings, suggestions⟩

/-- `ModelBuilder._estimate_layer_parameters` (`ml_model_builder.py:384`):
closed-form parameter-count estimates per layer type; any type outside the
listed ones contributes `0`, as does any layer whose input or output shape
is untracked (falsy). -/
def estimateLayerParameters (layerType : String) (config : LayerConfig)
    (inputShape outputShape : PyVal) : Except String PyVal := do
  if !inputShape.pyTruthy || !outputShape.pyTruthy then
    return PyVal.int 0
  else
    let params := config.parameters
    if layerType = "dense" then do
      let units := getParam params "units" (PyVal.int 128)
      let useBias := getParam params "use_bias" (PyVal.bool true)
      let len ← pyLen inputShape
      let inputDim ← if len > 0 then pyIndexLast inputShape else pure (PyVal.int 0)
      let prod ← pyMul inputDim units
      pyAdd prod (if useBias.pyTruthy then units else PyVal.int 0)
    else if layerType = "conv2d" ∨ layerType = "conv1d" then do
      let filters := getParam params "filters" (PyVal.int 32)
      let kernelSize := getParam params "kernel_size"
        (if layerType = "conv2d" then PyVal.list [PyVal.int 3, PyVal.int 3]
         else PyVal.int 3)
      let useBias := getParam params "use_bias" (PyVal.bool true)
      let kernelParams ← if layerType = "conv2d" then do
          let len ← pyLen inputShape
          let inputChannels ← if len > 0 then pyIndexLast inputShape
            else pure (PyVal.int 0)
          let k0 ← pyIndex kernelSize 0
          let k1 ← pyIndex kernelSize 1
          pyMul (← pyMul (← pyMul k0 k1) inputChannels) filters
        else do
          let len ← pyLen inputShape
          let inputChannels ← if len > 0 then pyIndexLast inputShape
            else pure (PyVal.int 0)
          pyMul (← pyMul kernelSize inputChannels) filters
      pyAdd kernelParams (if useBias.pyTruthy then filters else PyVal.int 0)
    else if layerType = "batch_normalization" ∨ layerType = "layer_normalization" then
      if outputShape.pyTruthy then do
        let last ← pyIndexLast outputShape
        pyMul last (PyVal.int 2)
      else
        return PyVal.int 0
    else if layerType = "lstm" ∨ layerType = "gru" then do
      let units := getParam params "units" (PyVal.int 128)
      let len ← pyLen inputShape
      let inputDim ← if len > 0 then pyIndexLast inputShape else pure (PyVal.int 0)
      let a ← pyMul inputDim units
      let b ← pyMul units units
      let s ← pyAdd (← pyAdd a b) units
      if layerType = "lstm" then
        pyMul (PyVal.int 4) s
      else
        pyMul (PyVal.int 3) s
    else
      return PyVal.int 0

/-- One row of `layer_details` in the analysis output. -/
structure LayerDetail where
  layerIndex : Nat
  layerType : String
  inputShape : PyVal
  outputShape : PyVal
  parameters : PyVal
  trainable : PyVal

/-- The `analysis` payload of a successful
`ModelBuilder.analyze_model_complexity` call. -/
structure Analysis where
  totalParameters : PyVal
  totalLayers : Nat
  inputShape : PyVal
  outputShape : PyVal
  layerDetails : List LayerDetail

/-- Result dictionary of `analyze_model_complexity`. -/
inductive AnalyzeResult where
  | failure (errors : List String)
  | success (analysis : Analysis)

/-- The `for i, layer_data in enumerate(layers)` loop of
`analyze_model_complexity`: computes the output shape when one is tracked,
estimates the layer's parameters, accumulates the running total and the
per-layer detail rows. -/
def analyzeGo (i : Nat) (lds : List LayerData) (totalParams : PyVal)
    (details : List LayerDetail) (currentShape : PyVal) :
    Except String (PyVal × List LayerDetail × PyVal) :=
  match lds with
  | [] => Except.ok (totalParams, details, currentShape)
  | ld :: rest => do
    let layerType ← match ld.type with
      | Option.some t => pure t
      | Option.none => Except.error "\x27type\x27"
    let layerConfig := mkLayerConfig i layerType ld currentShape
    let outputShapeE : Except String PyVal :=
      if currentShape.pyTruthy then
        match getLayer layerType with
        | Option.some impl => impl.calculateOutputShape currentShape layerConfig
        | Option.none =>
          Except.error "\x27NoneType\x27 object has no attribute \x27calculate_output_shape\x27"
      else
        pure PyVal.none
    let outputShape ← outputShapeE
    let params ← estimateLayerParameters layerType layerConfig currentShape outputShape
    let totalParams ← pyAdd totalParams params
    let detail : LayerDetail :=
      ⟨i, layerType, currentShape, outputShape, params, layerConfig.trainable⟩
    analyzeGo (i + 1) rest totalParams (details ++ [detail]) outputShape

/-- `ModelBuilder.analyze_model_complexity` (`ml_model_builder.py:316`):
validates first (exceptions from validation propagate — it is called
outside the `try` block), fails with the validation errors when invalid,
and otherwise runs the estimation loop with exceptions downgraded to a
`分析失败` failure result. -/
def analyzeModelComplexity (mc : ModelConfig) : Except String AnalyzeResult := do
  let vr ← validateModelConfig mc
  if !vr.isValid then
    return AnalyzeResult.failure vr.errors
  else
    match mc.layers with
    | Option.none => return AnalyzeResult.failure ["分析失败: \x27layers\x27"]
    | Option.some lds =>
      match analyzeGo 0 lds (PyVal.int 0) [] (mc.inputShape.getD PyVal.none) with
      | Except.ok (total, details, outShape) =>
        return AnalyzeResult.success
          ⟨total, lds.length, mc.inputShape.getD PyVal.none, outShape, details⟩
      | Except.error e =>
        return AnalyzeResult.failure [s!"分析失败: {e}"]

/-- Result dictionary of `build_tensorflow_model` / `build_pytorch_model`:
`invalid` is the validation-failure dictionary (with a `warnings` key),
`genFailure` the code-generation-failure dictionary (errors only), and
`built` the success dictionary with its three code artifacts. -/
inductive BuildResult where
  | invalid (errors warnings : List String)
  | genFailure (errors : List String)
  | built (imports modelDefinition completeCode : String)
      (warnings suggestions : List String)

/-- Loop of `ModelBuilder._generate_tensorflow_code`: one
`model.add(...)` line per layer, threading the declared input shape
through the shape rules (only while it is truthy). -/
def genTensorflowGo (i : Nat) (lds : List LayerData) (inputShape : PyVal)
    (acc : List String) : Except String (List String) :=
  match lds with
  | [] => Except.ok acc
  | ld :: rest => do
    let layerType ← match ld.type with
      | Option.some t => pure t
      | Option.none => Except.error "\x27type\x27"
    let layerImpl ← match getLayer layerType with
      | Option.some impl => pure impl
      | Option.none =>
        Except.error "\x27NoneType\x27 object has no attribute \x27generate_tensorflow_code\x27"
    let layerConfig := mkLayerConfig i layerType ld inputShape
    let layerCode ← layerImpl.generateTensorflowCode layerConfig (i = 0)
    let acc := acc ++ [s!"    model.add({layerCode})"]
    let inputShape ← if inputShape.pyTruthy then
        layerImpl.calculateOutputShape inputShape layerConfig
      else pure inputShape
    genTensorflowGo (i + 1) rest inputShape acc

/-- `ModelBuilder._generate_tensorflow_code` (`ml_model_builder.py:199`):
renders the sequential-model template around the per-layer lines. -/
def generateTensorflowCode (mc : ModelConfig) : Except String String := do
  let lds ← match mc.layers with
    | Option.some l => pure l
    | Option.none => Except.error "\x27layers\x27"
  let layersCode ← genTensorflowGo 0 lds (mc.inputShape.getD PyVal.none) []
  let modelName := mc.name.getD "CustomModel"
  let shapeStr := match mc.inputShape with
    | Option.none => "Unknown"
    | Option.some v => v.pyStr
  return "def create_" ++ modelName.toLower ++ "():\n" ++
    "    \"\"\"\n" ++
    "    创建" ++ modelName ++ "模型\n" ++
    "    输入形状: " ++ shapeStr ++ "\n" ++
    "    \"\"\"\n" ++
    "    model = models.Sequential()\n" ++
    "    \n" ++
    String.intercalate "\n" layersCode ++ "\n" ++
    "    \n" ++
    "    return model\n" ++
    "\n" ++
    "# 创建模型实例\n" ++
    "model = create_" ++ modelName.toLower ++ "()\n" ++
    "\n" ++
    "# 编译模型（需要根据具体任务调整）\n" ++
    "model.compile(\n" ++
    "    optimizer=\x27adam\x27,\n" ++
    "    loss=\x27categorical_crossentropy\x27,  # 根据任务类型调整\n" ++
    "    metrics=[\x27accuracy\x27]\n" ++
    ")\n" ++
    "\n" ++
    "# 模型摘要\n" ++
    "model.summary()"

/-- The `try` block of `build_tensorflow_model`: imports (with the
conditional add-on import), model code, and the concatenation. -/
def buildTensorflowTry (mc : ModelConfig) : Except String (String × String × String) := do
  let imports := ["import tensorflow as tf",
    "from tensorflow.keras import layers, models", "import numpy as np"]
  let lds ← match mc.layers with
    | Option.some l => pure l
    | Option.none => Except.error "\x27layers\x27"
  let layerTypes := lds.map (fun ld => ld.type)
  let imports := if layerTypes.any (fun t =>
      t = Option.some "group_normalization" ∨ t = Option.some "spectral_normalization") then
      imports ++ ["import tensorflow_addons as tfa"]
    else imports
  let modelCode ← generateTensorflowCode mc
  let importsStr := String.intercalate "\n" imports
  return (importsStr, modelCode, String.intercalate "\n\n" [importsStr, modelCode])

/-- `ModelBuilder.build_tensorflow_model` (`ml_model_builder.py:113`):
validates first; on an invalid result returns the error/warning
dictionary without touching code generation; otherwise emits code with
exceptions downgraded to a `代码生成失败` failure dictionary. -/
def buildTensorflowModel (mc : ModelConfig) : Except String BuildResult := do
  let vr ← validateModelConfig mc
  if !vr.isValid then
    return BuildResult.invalid vr.errors vr.warnings
  else
    match buildTensorflowTry mc with
    | Except.ok (im, md, cc) =>
      return BuildResult.built im md cc vr.warnings vr.suggestions
    | Except.error e =>
      return BuildResult.genFailure [s!"代码生成失败: {e}"]

/-- Loop of `ModelBuilder._generate_pytorch_code`: collects the non-blank
definition and forward statements, threading the shape like the
TensorFlow loop. -/
def genPytorchGo (i : Nat) (lds : List LayerData) (inputShape : PyVal)
    (defsAcc fwdsAcc : List String) : Except String (List String × List String) :=
  match lds with
  | [] => Except.ok (defsAcc, fwdsAcc)
  | ld :: rest => do
    let layerType ← match ld.type with
      | Option.some t => pure t
      | Option.none => Except.error "\x27type\x27"
    let layerImpl ← match getLayer layerType with
      | Option.some impl => pure impl
      | Option.none =>
        Except.error "\x27NoneType\x27 object has no attribute \x27generate_pytorch_code\x27"
    let layerConfig := mkLayerConfig i layerType ld inputShape
    let layerCode ← layerImpl.generatePytorchCode layerConfig i
    let defsAcc := if !layerCode.1.trim.isEmpty then
        defsAcc ++ ["        " ++ layerCode.1]
      else defsAcc
    let fwdsAcc := if !layerCode.2.trim.isEmpty then
        fwdsAcc ++ ["        " ++ layerCode.2]
      else fwdsAcc
    let inputShape ← if inputShape.pyTruthy then
        layerImpl.calculateOutputShape inputShape layerConfig
      else pure inputShape
    genPytorchGo (i + 1) rest inputShape defsAcc fwdsAcc

/-- `ModelBuilder._generate_pytorch_code` (`ml_model_builder.py:254`):
renders the `nn.Module` class template around the collected statements. -/
def generatePytorchCode (mc : ModelConfig) : Except String String := do
  let lds ← match mc.layers with
    | Option.some l => pure l
    | Option.none => Except.error "\x27layers\x27"
  let (definitions, forwards) ← genPytorchGo 0 lds (mc.inputShape.getD PyVal.none) [] []
  let modelName := mc.name.getD "CustomModel"
  let shapeStr := match mc.inputShape with
    | Option.none => "Unknown"
    | Option.some v => v.pyStr
  return "class " ++ modelName ++ "(nn.Module):\n" ++
    "    \"\"\"\n" ++
    "    " ++ modelName ++ "模型\n" ++
    "    输入形状: " ++ shapeStr ++ "\n" ++
    "    \"\"\"\n" ++
    "    \n" ++
    "    def __init__(self):\n" ++
    "        super(" ++ modelName ++ ", self).__init__()\n" ++
    "        \n" ++
    String.intercalate "\n" definitions ++ "\n" ++
    "    \n" ++
    "    def forward(self, x):\n" ++
    String.intercalate "\n" forwards ++ "\n" ++
    "        return x\n" ++
    "\n" ++
    "# 创建模型实例\n" ++
    "model = " ++ modelName ++ "()\n" ++
    "\n" ++
    "# 模型信息\n" ++
    "def count_parameters(model):\n" ++
    "    return sum(p.numel() for p in model.parameters() if p.requires_grad)\n" ++
    "\n" ++
    "print(f\"模型参数数量: \x7bcount_parameters(model):,\x7d\")\n" ++
    "print(f\"模型结构:\\n\x7bmodel\x7d\")"

/-- The `try` block of `build_pytorch_model`. -/
def buildPytorchTry (mc : ModelConfig) : Except String (String × String × String) := do
  let imports := ["import torch", "import torch.nn as nn",
    "import torch.nn.functional as F", "import math"]
  let modelCode ← generatePytorchCode mc
  let importsStr := String.intercalate "\n" imports
  return (importsStr, modelCode, String.intercalate "\n\n" [importsStr, modelCode])

/-- `ModelBuilder.build_pytorch_model` (`ml_model_builder.py:158`): same
structure as the TensorFlow build. -/
def buildPytorchModel (mc : ModelConfig) : Except String BuildResult := do
  let vr ← validateModelConfig mc
  if !vr.isValid then
    return BuildResult.invalid vr.errors vr.warnings
  else
    match buildPytorchTry mc with
    | Except.ok (im, md, cc) =>
      return BuildResult.built im md cc vr.warnings vr.suggestions
    | Except.error e =>
      return BuildResult.genFailure [s!"代码生成失败: {e}"]

/-! ### Graph orderer (`ml_converters/tensorflow_converter.py:89`) -/

/-- A visualized layer node as handled by
`TensorFlowConverter._topological_sort` (a dict with at least `id` and
`type` keys; the sort itself reads only `id`). -/
structure TLayer where
  id : String
  ltype : String
deriving DecidableEq

/-- `connections.get(layer_id, [])` on the target→sources dependency
map. -/
def connGet (conns : List (String × List String)) (layerId : String) :
    List String :=
  match conns.find? (fun c => c.1 = layerId) with
  | Option.some c => c.2
  | Option.none => []

/-- One pass's ready set: the remaining layers all of whose dependencies
have already left the remaining set. -/
def readyLayers (remaining : List TLayer) (conns : List (String × List String)) :
    List TLayer :=
  remaining.filter (fun l =>
    (connGet conns l.id).all (fun dep => !remaining.any (fun r => r.id = dep)))

/-- `remaining_layers.remove(layer)` applied for each ready layer in
order. -/
def removeAll (rem : List TLayer) (ready : List TLayer) : List TLayer :=
  ready.foldl (fun acc l => acc.erase l) rem

theorem removeAll_cons (rem : List TLayer) (y : TLayer) (ys : List TLayer) :
    removeAll rem (y :: ys) = removeAll (rem.erase y) ys := rfl

theorem removeAll_length_le (ys : List TLayer) (rem : List TLayer) :
    (removeAll rem ys).length ≤ rem.length := by
  induction ys generalizing rem with
  | nil => exact Nat.le_refl _
  | cons y ys ih =>
    rw [removeAll_cons]
    exact Nat.le_trans (ih (rem.erase y)) (List.erase_sublist y rem).length_le

theorem removeAll_length_lt (rem : List TLayer) (y : TLayer) (ys : List TLayer)
    (hy : y ∈ rem) : (removeAll rem (y :: ys)).length < rem.length := by
  rw [removeAll_cons]
  have h1 : (removeAll (rem.erase y) ys).length ≤ (rem.erase y).length :=
    removeAll_length_le ys (rem.erase y)
  have h2 : (rem.erase y).length < rem.length := by
    rw [List.length_erase_of_mem hy]
    exact Nat.pred_lt (Nat.not_eq_zero_of_lt (List.length_pos.mpr (List.ne_nil_of_mem hy)))
  exact Nat.lt_of_le_of_lt h1 h2

/-- The `while remaining_layers:` loop of
`TensorFlowConverter._topological_sort`.  The returned flag records
whether the no-progress branch (the source's cycle warning followed by
appending the remaining layers in declaration order) was taken. -/
def topoGo (conns : List (String × List String)) (remaining : List TLayer) :
    List TLayer × Bool :=
  if remaining.isEmpty then ([], false)
  else
    match h : readyLayers remaining conns with
    | [] => (remaining, true)
    | y :: ys =>
      let res := topoGo conns (removeAll remaining (y :: ys))
      ((y :: ys) ++ res.1, res.2)
termination_by remaining.length
decreasing_by
  have hy : y ∈ remaining := by
    have hmem : y ∈ readyLayers remaining conns := by
      rw [h]; exact List.mem_cons_self y ys
    exact List.mem_of_mem_filter hmem
  exact removeAll_length_lt remaining y ys hy

/-- `TensorFlowConverter._topological_sort`: the sorted sequence plus the
cycle-warning flag. -/
def topologicalSort (layers : List TLayer) (conns : List (String × List String)) :
    List TLayer × Bool :=
  topoGo conns layers

/-! ### Evaluation lemmas -/

theorem exc_bind_ok {α β ε : Type} (a : α) (f : α → Except ε β) :
    (Except.ok a : Except ε α) >>= f = f a := rfl

theorem exc_bind_error {α β ε : Type} (e : ε) (f : α → Except ε β) :
    (Except.error e : Except ε α) >>= f = Except.error e := rfl

theorem exc_map_ok {α β ε : Type} (a : α) (f : α → β) :
    f <$> (Except.ok a : Except ε α) = Except.ok (f a) := rfl

theorem exc_map_error {α β ε : Type} (e : ε) (f : α → β) :
    f <$> (Except.error e : Except ε α) = Except.error e := rfl

theorem exc_pure {α ε : Type} (a : α) :
    (pure a : Except ε α) = Except.ok a := rfl

theorem pyFloorDiv_int (x y : Int) (h : y ≠ 0) :
    pyFloorDiv (PyVal.int x) (PyVal.int y) = Except.ok (PyVal.int (Int.fdiv x y)) := by
  simp [pyFloorDiv, PyVal.toIntLike, h]

theorem pySub_int (x y : Int) :
    pySub (PyVal.int x) (PyVal.int y) = Except.ok (PyVal.int (x - y)) := rfl

theorem pyAdd_int (x y : Int) :
    pyAdd (PyVal.int x) (PyVal.int y) = Except.ok (PyVal.int (x + y)) := rfl

theorem pyMul_int (x y : Int) :
    pyMul (PyVal.int x) (PyVal.int y) = Except.ok (PyVal.int (x * y)) := rfl

/-! ### Claims -/

/-- The concrete parameter dictionary of a 2D convolution layer with
explicit filters, kernel, strides and padding. -/
def conv2dParamsOf (F k₁ k₂ s₁ s₂ : Int) (pad : String) : Params :=
  [("filters", PyVal.int F),
   ("kernel_size", PyVal.list [PyVal.int k₁, PyVal.int k₂]),
   ("strides", PyVal.list [PyVal.int s₁, PyVal.int s₂]),
   ("padding", PyVal.str pad)]

/-- The concrete parameter dictionary of a 2D pooling layer. -/
def pool2dParamsOf (k₁ k₂ s₁ s₂ : Int) (pad : String) : Params :=
  [("pool_size", PyVal.list [PyVal.int k₁, PyVal.int k₂]),
   ("strides", PyVal.list [PyVal.int s₁, PyVal.int s₂]),
   ("padding", PyVal.str pad)]

/-- Claim C1: for every 2D convolution or pooling layer applied to a
4-element shape `(batch, n₁, n₂, channels)` with kernel/pool size
`(k₁, k₂)` and strides `(s₁, s₂)`, `valid` padding yields spatial extents
`⌊(nᵢ − kᵢ)/sᵢ⌋ + 1` (floor division) and `same` padding yields
`nᵢ // sᵢ`; convolution sets the channel dimension to `filters`, pooling
preserves it, and the batch dimension is preserved in all cases. -/
theorem conv_pool_output_shape (batch ch : PyVal) (n₁ n₂ k₁ k₂ s₁ s₂ F : Int)
    (hs₁ : 0 < s₁) (hs₂ : 0 < s₂) :
    (conv2dCalculateOutputShape
        (PyVal.tuple [batch, PyVal.int n₁, PyVal.int n₂, ch])
        { layerType := "conv2d", layerId := "l",
          parameters := conv2dParamsOf F k₁ k₂ s₁ s₂ "valid" } =
      Except.ok (PyVal.tuple [batch, PyVal.int (Int.fdiv (n₁ - k₁) s₁ + 1),
        PyVal.int (Int.fdiv (n₂ - k₂) s₂ + 1), PyVal.int F])) ∧
    (conv2dCalculateOutputShape
        (PyVal.tuple [batch, PyVal.int n₁, PyVal.int n₂, ch])
        { layerType := "conv2d", layerId := "l",
          parameters := conv2dParamsOf F k₁ k₂ s₁ s₂ "same" } =
      Except.ok (PyVal.tuple [batch, PyVal.int (Int.fdiv n₁ s₁),
        PyVal.int (Int.fdiv n₂ s₂), PyVal.int F])) ∧
    (maxpool2dLayer.calculateOutputShape
        (PyVal.tuple [batch, PyVal.int n₁, PyVal.int n₂, ch])
        { layerType := "maxpool2d", layerId := "l",
          parameters := pool2dParamsOf k₁ k₂ s₁ s₂ "valid" } =
      Except.ok (PyVal.tuple [batch, PyVal.int (Int.fdiv (n₁ - k₁) s₁ + 1),
        PyVal.int (Int.fdiv (n₂ - k₂) s₂ + 1), ch])) ∧
    (maxpool2dLayer.calculateOutputShape
        (PyVal.tuple [batch, PyVal.int n₁, PyVal.int n₂, ch])
        { layerType := "maxpool2d", layerId := "l",
          parameters := pool2dParamsOf k₁ k₂ s₁ s₂ "same" } =
      Except.ok (PyVal.tuple [batch, PyVal.int (Int.fdiv n₁ s₁),
        PyVal.int (Int.fdiv n₂ s₂), ch])) ∧
    (avgpool2dLayer.calculateOutputShape
        (PyVal.tuple [batch, PyVal.int n₁, PyVal.int n₂, ch])
        { layerType := "avgpool2d", layerId := "l",
          parameters := pool2dParamsOf k₁ k₂ s₁ s₂ "valid" } =
      Except.ok (PyVal.tuple [batch, PyVal.int (Int.fdiv (n₁ - k₁) s₁ + 1),
        PyVal.int (Int.fdiv (n₂ - k₂) s₂ + 1), ch])) ∧
    (avgpool2dLayer.calculateOutputShape
        (PyVal.tuple [batch, PyVal.int n₁, PyVal.int n₂, ch])
        { layerType := "avgpool2d", layerId := "l",
          parameters := pool2dParamsOf k₁ k₂ s₁ s₂ "same" } =
      Except.ok (PyVal.tuple [batch, PyVal.int (Int.fdiv n₁ s₁),
        PyVal.int (Int.fdiv n₂ s₂), ch])) := by
  have hd₁ : ∀ x : Int, pyFloorDiv (PyVal.int x) (PyVal.int s₁) =
      Except.ok (PyVal.int (Int.fdiv x s₁)) :=
    fun x => pyFloorDiv_int x s₁ (by omega)
  have hd₂ : ∀ x : Int, pyFloorDiv (PyVal.int x) (PyVal.int s₂) =
      Except.ok (PyVal.int (Int.fdiv x s₂)) :=
    fun x => pyFloorDiv_int x s₂ (by omega)
  refine ⟨?_, ?_, ?_, ?_, ?_, ?_⟩ <;>
    simp [conv2dCalculateOutputShape, maxpool2dLayer, avgpool2dLayer,
      pool2dCalculateOutputShape, conv2dParamsOf, pool2dParamsOf, getParam,
      pyLen, PyVal.elems, pyIndex, hd₁, hd₂, pySub_int, pyAdd_int,
      exc_bind_ok, exc_map_ok, exc_pure, PyVal.pyEq]

/-- Witness for C1 at `batch=None`, spatial extents `8×8`, channels `3`,
kernel `3×3`, strides `2×2`, `16` filters. -/
theorem conv_pool_output_shape_witness :
    (0 : Int) < 2 ∧
    conv2dCalculateOutputShape
        (PyVal.tuple [PyVal.none, PyVal.int 8, PyVal.int 8, PyVal.int 3])
        { layerType := "conv2d", layerId := "l",
          parameters := conv2dParamsOf 16 3 3 2 2 "valid" } =
      Except.ok (PyVal.tuple [PyVal.none, PyVal.int (Int.fdiv (8 - 3) 2 + 1),
        PyVal.int (Int.fdiv (8 - 3) 2 + 1), PyVal.int 16]) :=
  ⟨by decide,
   (conv_pool_output_shape PyVal.none (PyVal.int 3) 8 8 3 3 2 2 16
     (by decide) (by decide)).1⟩

/-- A `layers` entry `{type: "dense", parameters: {units: u}}`. -/
def denseUnitsLayer (u : PyVal) : LayerData :=
  { type := Option.some "dense", parameters := Option.some [("units", u)] }

/-- A `layers` entry `{type: "lstm", parameters: {units: u}}`. -/
def lstmUnitsLayer (u : PyVal) : LayerData :=
  { type := Option.some "lstm", parameters := Option.some [("units", u)] }

/-- A model whose dense layer has the string `"64"` as `units`. -/
def cfgStrUnits : ModelConfig :=
  { layers := Option.some [denseUnitsLayer (PyVal.str "64")] }

/-- The `TypeError` message CPython raises for `"64" >= 1`. -/
def typeErrorGeStr : String :=
  "\x27>=\x27 not supported between instances of \x27str\x27 and \x27int\x27"

/-- Claim C2: refuted — the range-constraint check compares the supplied
value against the numeric bound without a type guard, so a string `units`
raises a `TypeError` out of `validate`, and out of `build`/`analyze`,
which call `validate` outside their exception handlers. -/
theorem validate_build_analyze_raise_on_string_units :
    validateModelConfig cfgStrUnits = Except.error typeErrorGeStr ∧
    buildTensorflowModel cfgStrUnits = Except.error typeErrorGeStr ∧
    buildPytorchModel cfgStrUnits = Except.error typeErrorGeStr ∧
    analyzeModelComplexity cfgStrUnits = Except.error typeErrorGeStr :=
  ⟨rfl, rfl, rfl, rfl⟩

/-- Scenario A of the specification: one dense layer with `units=10` and
declared input shape `[null, 4]` (a JSON list, which is what the
transport layer hands to the builder). -/
def cfgScenarioA : ModelConfig :=
  { layers := Option.some [denseUnitsLayer (PyVal.int 10)],
    inputShape := Option.some (PyVal.list [PyVal.none, PyVal.int 4]) }

/-- The `TypeError` message CPython raises for `[None] + (10,)`. -/
def listTupleConcatError : String :=
  "can only concatenate list (not \"tuple\") to list"

/-- Claim C7: refuted on the code — the dense shape rule concatenates
`input_shape[:-1]` with the tuple `(units,)`, which raises a `TypeError`
when the declared input shape is the JSON list `[null, 4]`; `validate`
downgrades it to a shape-computation error and reports the model invalid.
Had the shape been a tuple `(None, 4)`, the scenario would return
`is_valid=true` with output shape `(None, 10)` as the specification
expects. -/
theorem scenario_a_fails_shape_propagation :
    validateModelConfig cfgScenarioA =
      Except.ok ⟨false, ["第1层(dense): 形状计算错误 - " ++ listTupleConcatError], [], []⟩ ∧
    denseCalculateOutputShape (PyVal.list [PyVal.none, PyVal.int 4])
        (mkLayerConfig 0 "dense" (denseUnitsLayer (PyVal.int 10))
          (PyVal.list [PyVal.none, PyVal.int 4])) =
      Except.error listTupleConcatError ∧
    denseCalculateOutputShape (PyVal.tuple [PyVal.none, PyVal.int 4])
        (mkLayerConfig 0 "dense" (denseUnitsLayer (PyVal.int 10))
          (PyVal.tuple [PyVal.none, PyVal.int 4])) =
      Except.ok (PyVal.tuple [PyVal.none, PyVal.int 10]) ∧
    validateModelConfig
        { cfgScenarioA with inputShape := Option.some (PyVal.tuple [PyVal.none, PyVal.int 4]) } =
      Except.ok ⟨true, [], [], []⟩ :=
  ⟨rfl, rfl, rfl, rfl⟩

/-- A model whose dense layer has the float `5.0` as `units`. -/
def cfgFloatUnits : ModelConfig :=
  { layers := Option.some [denseUnitsLayer (PyVal.float 5)] }

/-- Counterexample to claim C3: with `units=5.0` the dense layer's own
`validate_config` appends the error `units必须是正整数` to a result whose
stored `is_valid` flag is already `True`, and the pipeline copies
per-layer errors only from results flagged invalid — so `validate`
returns `is_valid=true` with an empty error list, dropping the per-layer
error instead of returning its prefixed form. -/
theorem validate_drops_stale_layer_errors :
    validateModelConfig cfgFloatUnits =
      Except.ok ⟨true, [], ["无法确定最终输出形状"], []⟩ ∧
    denseValidateConfig
        (mkLayerConfig 0 "dense" (denseUnitsLayer (PyVal.float 5)) PyVal.none) =
      Except.ok ⟨true, ["units必须是正整数"], [], []⟩ :=
  ⟨rfl, rfl⟩

/-- Scenario D of the specification: one LSTM layer fed the 2-dimensional
input shape `[null, 4]`. -/
def cfgLstm2d : ModelConfig :=
  { layers := Option.some [lstmUnitsLayer (PyVal.int 64)],
    inputShape := Option.some (PyVal.list [PyVal.none, PyVal.int 4]) }

/-- The rank error `LSTMLayer.calculate_output_shape` raises. -/
def lstmRankMsg : String := "LSTM输入必须是3维: (batch, timesteps, features)"

/-- The Conv2D rank error message. -/
def conv2dRankMsg : String := "Conv2D输入必须是4维: (batch, height, width, channels)"

/-- The validation error `validate` surfaces for Scenario D. -/
def lstm2dError : String := "第1层(lstm): 形状计算错误 - " ++ lstmRankMsg

/-- Counterexample to claim C4: the rank error surfaced for an LSTM fed a
2-dimensional shape names only the expected rank (3); no digit `2` (nor
the numeral `二`) occurs anywhere in the reported error, so the message
does not name the actual rank. -/
theorem lstm_rank_error_names_no_actual_rank :
    validateModelConfig cfgLstm2d = Except.ok ⟨false, [lstm2dError], [], []⟩ ∧
    Char.ofNat 50 ∉ lstm2dError.toList ∧ '二' ∉ lstm2dError.toList :=
  ⟨rfl, by decide, by decide⟩

/-- Claim C4 as amended: shape functions with a rank precondition check
the rank first and raise a rank error naming the expected rank (but not
the actual one), which `validate` catches and surfaces as a per-layer
validation error; in particular an LSTM fed a 2-dimensional input shape
yields `is_valid=false` with an error referencing the offending layer. -/
theorem rank_preconditions_surface_as_layer_errors :
    (∀ (shape : PyVal) (cfg : LayerConfig) (n : Nat),
      pyLen shape = Except.ok n → n ≠ 3 →
      lstmLayer.calculateOutputShape shape cfg = Except.error lstmRankMsg) ∧
    (∀ (shape : PyVal) (cfg : LayerConfig) (n : Nat),
      pyLen shape = Except.ok n → n ≠ 4 →
      conv2dLayer.calculateOutputShape shape cfg = Except.error conv2dRankMsg) ∧
    validateModelConfig cfgLstm2d = Except.ok ⟨false, [lstm2dError], [], []⟩ := by
  refine ⟨?_, ?_, rfl⟩
  · intro shape cfg n hlen hn
    simp [lstmLayer, recurrentCalculateOutputShape, lstmRankMsg, hlen,
      exc_bind_ok, hn]
  · intro shape cfg n hlen hn
    simp [conv2dLayer, conv2dCalculateOutputShape, conv2dRankMsg, hlen,
      exc_bind_ok, hn]

/-- Witness for the amended C4 at the concrete 2-dimensional shape
`(5, 7)`. -/
theorem rank_preconditions_witness :
    pyLen (PyVal.tuple [PyVal.int 5, PyVal.int 7]) = Except.ok 2 ∧ (2 : Nat) ≠ 3 ∧
    lstmLayer.calculateOutputShape (PyVal.tuple [PyVal.int 5, PyVal.int 7])
        { layerType := "lstm", layerId := "l", parameters := [] } =
      Except.error lstmRankMsg :=
  ⟨rfl, by decide,
   rank_preconditions_surface_as_layer_errors.1
     (PyVal.tuple [PyVal.int 5, PyVal.int 7])
     { layerType := "lstm", layerId := "l", parameters := [] } 2 rfl (by decide)⟩

theorem readyLayers_nil_conns (rem : List TLayer) : readyLayers rem [] = rem := by
  simp [readyLayers, connGet]

theorem removeAll_self (l : List TLayer) : removeAll l l = [] := by
  induction l with
  | nil => rfl
  | cons y ys ih => rw [removeAll_cons, List.erase_cons_head]; exact ih

theorem topoGo_nil_conns_aux :
    ∀ (n : Nat) (rem : List TLayer), rem.length ≤ n → topoGo [] rem = (rem, false) := by
  intro n
  induction n with
  | zero =>
    intro rem h
    have hnil : rem = [] := List.eq_nil_of_length_eq_zero (Nat.le_zero.mp h)
    subst hnil
    rw [topoGo]
    rfl
  | succ n ih =>
    intro rem hlen
    rw [topoGo]
    by_cases hre : rem = []
    · subst hre; rfl
    · rw [if_neg (by simp [List.isEmpty_iff, hre])]
      split
      · rename_i hready
        rw [readyLayers_nil_conns rem] at hready
        exact absurd hready hre
      · rename_i y ys hready
        rw [readyLayers_nil_conns rem] at hready
        subst hready
        rw [removeAll_self, ih [] (by simp)]
        simp

/-- Claim C5: the graph orderer never fails — a pass with no ready layer
(cycle or unreachable dependency) returns the remaining instances
unchanged in declaration order with the warning flag set, and an empty
dependency map returns the input declaration order unchanged with no
warning. -/
theorem graph_orderer_fallback :
    (∀ (conns : List (String × List String)) (rem : List TLayer),
      rem ≠ [] → readyLayers rem conns = [] → topoGo conns rem = (rem, true)) ∧
    (∀ (layers : List TLayer) (conns : List (String × List String)),
      layers ≠ [] → readyLayers layers conns = [] →
      topologicalSort layers conns = (layers, true)) ∧
    (∀ layers : List TLayer, topologicalSort layers [] = (layers, false)) := by
  have hstuck : ∀ (conns : List (String × List String)) (rem : List TLayer),
      rem ≠ [] → readyLayers rem conns = [] → topoGo conns rem = (rem, true) := by
    intro conns rem hne hready
    rw [topoGo]
    rw [if_neg (by simp [List.isEmpty_iff, hne])]
    split
    · rfl
    · rename_i y ys h
      rw [hready] at h
      exact absurd h (by simp)
  refine ⟨hstuck, ?_, ?_⟩
  · intro layers conns hne hready
    exact hstuck conns layers hne hready
  · intro layers
    exact topoGo_nil_conns_aux layers.length layers (Nat.le_refl _)

/-- Witness for C5: two layers in a dependency cycle fall back to
declaration order with the warning flag, and the same two layers with no
connections keep declaration order without it. -/
theorem graph_orderer_fallback_witness :
    ([⟨"a", "dense"⟩, ⟨"b", "dense"⟩] : List TLayer) ≠ [] ∧
    readyLayers [⟨"a", "dense"⟩, ⟨"b", "dense"⟩]
      [("a", ["b"]), ("b", ["a"])] = [] ∧
    topologicalSort [⟨"a", "dense"⟩, ⟨"b", "dense"⟩]
      [("a", ["b"]), ("b", ["a"])] = ([⟨"a", "dense"⟩, ⟨"b", "dense"⟩], true) ∧
    topologicalSort [⟨"a", "dense"⟩, ⟨"b", "dense"⟩] [] =
      ([⟨"a", "dense"⟩, ⟨"b", "dense"⟩], false) := by
  refine ⟨by decide, by decide, ?_, ?_⟩
  · exact graph_orderer_fallback.2.1 [⟨"a", "dense"⟩, ⟨"b", "dense"⟩]
      [("a", ["b"]), ("b", ["a"])] (by decide) (by decide)
  · exact graph_orderer_fallback.2.2 [⟨"a", "dense"⟩, ⟨"b", "dense"⟩]

/-- Claim C6: both build operations run `validate` first; when it reports
`is_valid=false` they return the failure dictionary carrying the
validation errors and warnings without invoking code emission, and when
it reports `is_valid=true` they invoke the corresponding code emitter
(whose own exceptions are downgraded to a generation-failure
dictionary). -/
theorem build_validates_first (mc : ModelConfig) (vr : ValidationResult)
    (hv : validateModelConfig mc = Except.ok vr) :
    (vr.isValid = false →
      buildTensorflowModel mc = Except.ok (BuildResult.invalid vr.errors vr.warnings) ∧
      buildPytorchModel mc = Except.ok (BuildResult.invalid vr.errors vr.warnings)) ∧
    (vr.isValid = true →
      buildTensorflowModel mc = Except.ok
        (match buildTensorflowTry mc with
         | Except.ok (im, md, cc) => BuildResult.built im md cc vr.warnings vr.suggestions
         | Except.error e => BuildResult.genFailure [s!"代码生成失败: {e}"]) ∧
      buildPytorchModel mc = Except.ok
        (match buildPytorchTry mc with
         | Except.ok (im, md, cc) => BuildResult.built im md cc vr.warnings vr.suggestions
         | Except.error e => BuildResult.genFailure [s!"代码生成失败: {e}"])) := by
  constructor <;> intro h
  · constructor <;>
      simp [buildTensorflowModel, buildPytorchModel, hv, exc_bind_ok, h, exc_pure]
  · constructor <;>
      (simp [buildTensorflowModel, buildPytorchModel, hv, exc_bind_ok, h, exc_pure]
       split <;> rfl)

/-- A dense-only model with no declared input shape (validates cleanly). -/
def cfgDense10 : ModelConfig :=
  { layers := Option.some [denseUnitsLayer (PyVal.int 10)] }

/-- The validation result of `cfgDense10`. -/
def vrDense10 : ValidationResult := ⟨true, [], ["无法确定最终输出形状"], []⟩

/-- Witness for C6: the valid model `cfgDense10` is emitted, the invalid
Scenario A model is rejected with its validation errors and no code. -/
theorem build_validates_first_witness :
    validateModelConfig cfgDense10 = Except.ok vrDense10 ∧
    vrDense10.isValid = true ∧
    buildTensorflowModel cfgDense10 = Except.ok
      (match buildTensorflowTry cfgDense10 with
       | Except.ok (im, md, cc) =>
         BuildResult.built im md cc vrDense10.warnings vrDense10.suggestions
       | Except.error e => BuildResult.genFailure [s!"代码生成失败: {e}"]) ∧
    buildTensorflowModel cfgScenarioA = Except.ok
      (BuildResult.invalid ["第1层(dense): 形状计算错误 - " ++ listTupleConcatError] []) :=
  ⟨rfl, rfl,
   ((build_validates_first cfgDense10 vrDense10 rfl).2 rfl).1,
   ((build_validates_first cfgScenarioA
      ⟨false, ["第1层(dense): 形状计算错误 - " ++ listTupleConcatError], [], []⟩
      rfl).1 rfl).1⟩

/-- Claim C9: validate, both builds, and analyze are independent of the
`connections` field — the builder pipeline never reads it. -/
theorem pipeline_ignores_connections (mc : ModelConfig)
    (c₁ c₂ : List (String × String)) :
    validateModelConfig { mc with connections := c₁ } =
      validateModelConfig { mc with connections := c₂ } ∧
    buildTensorflowModel { mc with connections := c₁ } =
      buildTensorflowModel { mc with connections := c₂ } ∧
    buildPytorchModel { mc with connections := c₁ } =
      buildPytorchModel { mc with connections := c₂ } ∧
    analyzeModelComplexity { mc with connections := c₁ } =
      analyzeModelComplexity { mc with connections := c₂ } := by
  cases mc with
  | mk layers inputShape name connections => exact ⟨rfl, rfl, rfl, rfl⟩

theorem estimate_zero_of_falsy_input (lt : String) (cfg : LayerConfig)
    (inS outS : PyVal) (h : inS.pyTruthy = false) :
    estimateLayerParameters lt cfg inS outS = Except.ok (PyVal.int 0) := by
  simp [estimateLayerParameters, h, exc_pure]

/-- Invariant of the analyze loop when the tracked shape is falsy: the
running total stays `0`, every appended detail row reports `0`
parameters, and the final shape is the initial one for an empty layer
list and `None` otherwise. -/
theorem analyzeGo_falsy_shape :
    ∀ (lds : List LayerData) (i : Nat) (d0 : List LayerDetail) (sh : PyVal)
      (t : PyVal) (ds : List LayerDetail) (o : PyVal),
      sh.pyTruthy = false →
      analyzeGo i lds (PyVal.int 0) d0 sh = Except.ok (t, ds, o) →
      t = PyVal.int 0 ∧ (∀ d ∈ ds, d ∈ d0 ∨ d.parameters = PyVal.int 0) ∧
      o = (if lds.isEmpty then sh else PyVal.none) := by
  intro lds
  induction lds with
  | nil =>
    intro i d0 sh t ds o hsh hgo
    simp only [analyzeGo] at hgo
    injection hgo with hgo
    injection hgo with h1 hgo
    injection hgo with h2 h3
    subst h1; subst h2; subst h3
    exact ⟨rfl, fun d hd => Or.inl hd, by simp⟩
  | cons ld rest ih =>
    intro i d0 sh t ds o hsh hgo
    simp only [analyzeGo] at hgo
    cases hty : ld.type with
    | none => rw [hty] at hgo; exact absurd hgo (by simp [exc_bind_error])
    | some lt =>
      rw [hty] at hgo
      simp only [exc_bind_ok, hsh, Bool.false_eq_true, if_false, exc_pure,
        estimate_zero_of_falsy_input _ _ _ _ hsh, pyAdd_int] at hgo
      have hgo' : analyzeGo (i + 1) rest (PyVal.int (0 + 0))
          (d0 ++ [⟨i, lt, sh, PyVal.none, PyVal.int 0,
            (mkLayerConfig i lt ld sh).trainable⟩]) PyVal.none =
          Except.ok (t, ds, o) := hgo
      rw [show ((0 : Int) + 0) = 0 from rfl] at hgo'
      obtain ⟨h1, h2, h3⟩ := ih (i + 1) _ PyVal.none t ds o rfl hgo'
      refine ⟨h1, ?_, ?_⟩
      · intro d hd
        rcases h2 d hd with hmem | hz
        · rcases List.mem_append.mp hmem with hmem' | hmem'
          · exact Or.inl hmem'
          · refine Or.inr ?_
            have : d = ⟨i, lt, sh, PyVal.none, PyVal.int 0,
                (mkLayerConfig i lt ld sh).trainable⟩ := by
              simpa using hmem'
            rw [this]
        · exact Or.inr hz
      · rw [h3]
        simp

/-- Claim C10: when no input shape is tracked, the parameter estimate of
every layer (whatever its type and parameters) is `0`; consequently
`analyze` on a model validating successfully with no truthy declared
input shape reports `total_parameters = 0`, `output_shape = None`, and
`0` parameters in every `layer_details` row. -/
theorem analyze_zero_params_without_input_shape :
    (∀ (lt : String) (cfg : LayerConfig) (inS outS : PyVal),
      inS.pyTruthy = false →
      estimateLayerParameters lt cfg inS outS = Except.ok (PyVal.int 0)) ∧
    (∀ (mc : ModelConfig) (a : Analysis),
      (mc.inputShape.getD PyVal.none).pyTruthy = false →
      analyzeModelComplexity mc = Except.ok (AnalyzeResult.success a) →
      a.totalParameters = PyVal.int 0 ∧ a.outputShape = PyVal.none ∧
      ∀ d ∈ a.layerDetails, d.parameters = PyVal.int 0) := by
  refine ⟨fun lt cfg inS outS h => estimate_zero_of_falsy_input lt cfg inS outS h, ?_⟩
  intro mc a hsh h
  unfold analyzeModelComplexity at h
  cases hvr : validateModelConfig mc with
  | error e => rw [hvr] at h; exact absurd h (by simp [exc_bind_error])
  | ok vr =>
    rw [hvr] at h
    simp only [exc_bind_ok] at h
    by_cases hvalid : vr.isValid = true
    · simp only [hvalid, Bool.not_true, Bool.false_eq_true, if_false, exc_pure] at h
      cases hl : mc.layers with
      | none => rw [hl] at h; simp at h
      | some lds =>
        rw [hl] at h
        simp only [] at h
        cases hgo : analyzeGo 0 lds (PyVal.int 0) [] (mc.inputShape.getD PyVal.none) with
        | error e => rw [hgo] at h; simp at h
        | ok triple =>
          obtain ⟨t, ds, o⟩ := triple
          rw [hgo] at h
          simp only [Except.ok.injEq, AnalyzeResult.success.injEq] at h
          have hnonempty : lds.isEmpty = false := by
            unfold validateModelConfig at hvr
            rw [hl] at hvr
            simp only [] at hvr
            by_cases hlen : lds.length = 0
            · rw [if_pos hlen] at hvr
              injection hvr with hvr
              rw [← hvr] at hvalid
              simp at hvalid
            · simp [List.isEmpty_iff, ← List.length_eq_zero]
              omega
          obtain ⟨h1, h2, h3⟩ := analyzeGo_falsy_shape lds 0 [] _ t ds o hsh hgo
          rw [← h]
          refine ⟨h1, ?_, ?_⟩
          · rw [h3, hnonempty]
            simp
          · intro d hd
            rcases h2 d hd with hmem | hz
            · exact absurd hmem (List.not_mem_nil d)
            · exact hz
    · simp only [Bool.not_eq_true] at hvalid
      simp only [hvalid, Bool.not_false, if_true, exc_pure] at h
      simp at h

/-- Witness for C10: `analyze` on the dense model with no declared input
shape returns total `0`, output shape `None`, and a single zero-parameter
detail row. -/
theorem analyze_zero_params_witness :
    ((cfgDense10.inputShape.getD PyVal.none).pyTruthy = false) ∧
    analyzeModelComplexity cfgDense10 = Except.ok (AnalyzeResult.success
      ⟨PyVal.int 0, 1, PyVal.none, PyVal.none,
        [⟨0, "dense", PyVal.none, PyVal.none, PyVal.int 0, PyVal.bool true⟩]⟩) ∧
    (PyVal.int 0 = PyVal.int 0 ∧ PyVal.none = PyVal.none ∧
      ∀ d ∈ [(⟨0, "dense", PyVal.none, PyVal.none, PyVal.int 0, PyVal.bool true⟩ : LayerDetail)],
        d.parameters = PyVal.int 0) :=
  ⟨rfl, rfl,
   analyze_zero_params_without_input_shape.2 cfgDense10
     ⟨PyVal.int 0, 1, PyVal.none, PyVal.none,
       [⟨0, "dense", PyVal.none, PyVal.none, PyVal.int 0, PyVal.bool true⟩]⟩
     rfl rfl⟩

theorem exc_bind_eq_ok {α β ε : Type} {e : Except ε α} {f : α → Except ε β}
    {b : β} (h : e >>= f = Except.ok b) :
    ∃ a, e = Except.ok a ∧ f a = Except.ok b := by
  cases e with
  | ok a => exact ⟨a, rfl, h⟩
  | error err => exact absurd h (by simp [exc_bind_error])

/-- The running sum `total_params` of the analysis, recomputed from the
reported `layer_details` rows (Python `+=` over the per-layer counts,
starting from `0`). -/
def sumParams (ds : List LayerDetail) : Except String PyVal :=
  ds.foldlM (fun acc d => pyAdd acc d.parameters) (PyVal.int 0)

/-- Specification of the analyze loop: the appended detail rows are one
per processed layer, the reported total is the `+=`-fold of the row
parameter counts over the initial total, and every row records exactly
the estimator's output on that layer's recorded shapes. -/
theorem analyzeGo_spec :
    ∀ (lds : List LayerData) (i : Nat) (t0 : PyVal) (d0 : List LayerDetail)
      (sh t : PyVal) (ds : List LayerDetail) (o : PyVal),
      analyzeGo i lds t0 d0 sh = Except.ok (t, ds, o) →
      ∃ suffix : List LayerDetail, ds = d0 ++ suffix ∧
        suffix.length = lds.length ∧
        suffix.foldlM (fun acc d => pyAdd acc d.parameters) t0 = Except.ok t ∧
        ∀ (j : Nat) (hj : j < lds.length) (hj2 : j < suffix.length),
          ∃ lt, (lds.get ⟨j, hj⟩).type = Option.some lt ∧
            (suffix.get ⟨j, hj2⟩).layerType = lt ∧
            (suffix.get ⟨j, hj2⟩).layerIndex = i + j ∧
            estimateLayerParameters lt
              (mkLayerConfig (i + j) lt (lds.get ⟨j, hj⟩)
                ((suffix.get ⟨j, hj2⟩).inputShape))
              ((suffix.get ⟨j, hj2⟩).inputShape)
              ((suffix.get ⟨j, hj2⟩).outputShape) =
              Except.ok ((suffix.get ⟨j, hj2⟩).parameters) := by
  intro lds
  induction lds with
  | nil =>
    intro i t0 d0 sh t ds o hgo
    simp only [analyzeGo] at hgo
    injection hgo with hgo
    injection hgo with h1 hgo
    injection hgo with h2 h3
    refine ⟨[], by simp [h2], rfl, ?_, ?_⟩
    · rw [← h1]; rfl
    · intro j hj
      exact absurd hj (Nat.not_lt_zero j)
  | cons ld rest ih =>
    intro i t0 d0 sh t ds o hgo
    simp only [analyzeGo] at hgo
    cases hty : ld.type with
    | none => rw [hty] at hgo; exact absurd hgo (by simp [exc_bind_error])
    | some lt =>
      rw [hty] at hgo
      simp only [exc_pure, exc_bind_ok] at hgo
      obtain ⟨outS, hE1, hgo⟩ := exc_bind_eq_ok hgo
      obtain ⟨ps, hE2, hgo⟩ := exc_bind_eq_ok hgo
      obtain ⟨total', hE3, hgo⟩ := exc_bind_eq_ok hgo
      obtain ⟨suffix', hds, hlen, hfold, hall⟩ :=
        ih (i + 1) total' (d0 ++ [⟨i, lt, sh, outS, ps,
          (mkLayerConfig i lt ld sh).trainable⟩]) outS t ds o hgo
      refine ⟨⟨i, lt, sh, outS, ps, (mkLayerConfig i lt ld sh).trainable⟩ :: suffix',
        by simpa using hds, by simpa using hlen, ?_, ?_⟩
      · show (pyAdd t0 ps >>= fun acc =>
          suffix'.foldlM (fun acc d => pyAdd acc d.parameters) acc) = Except.ok t
        rw [hE3, exc_bind_ok]
        exact hfold
      · intro j hj hj2
        cases j with
        | zero =>
          refine ⟨lt, hty, rfl, by simp, ?_⟩
          simpa [Nat.add_zero] using hE2
        | succ j' =>
          have hj' : j' < rest.length := Nat.lt_of_succ_lt_succ hj
          have hj2' : j' < suffix'.length := Nat.lt_of_succ_lt_succ hj2
          obtain ⟨lt', ha, hb, hc, hd⟩ := hall j' hj' hj2'
          have heq : i + (j' + 1) = i + 1 + j' := by omega
          refine ⟨lt', ha, hb, ?_, ?_⟩
          · rw [heq]; exact hc
          · rw [heq]; exact hd

theorem pyTruthy_bool (b : Bool) : (PyVal.bool b).pyTruthy = b := rfl

theorem pyTruthy_tuple_append (xs : List PyVal) (x : PyVal) :
    (PyVal.tuple (xs ++ [x])).pyTruthy = true := by
  simp [PyVal.pyTruthy]

theorem estimate_dense_formula (cfg : LayerConfig) (ds : List PyVal) (D U : Int)
    (bias : Bool) (outS : PyVal)
    (hp : cfg.parameters = [("units", PyVal.int U), ("use_bias", PyVal.bool bias)])
    (hout : outS.pyTruthy = true) :
    estimateLayerParameters "dense" cfg (PyVal.tuple (ds ++ [PyVal.int D])) outS =
      Except.ok (PyVal.int (D * U + if bias then U else 0)) := by
  cases bias <;>
    simp [estimateLayerParameters, hp, hout, getParam, pyLen, pyTruthy_tuple_append, pyTruthy_bool,
      pyIndexLast, PyVal.elems, pyMul_int, pyAdd_int, exc_bind_ok, exc_pure]

theorem estimate_conv2d_formula (cfg : LayerConfig) (ds : List PyVal)
    (C F kh kw : Int) (bias : Bool) (outS : PyVal)
    (hp : cfg.parameters = [("filters", PyVal.int F),
      ("kernel_size", PyVal.list [PyVal.int kh, PyVal.int kw]),
      ("use_bias", PyVal.bool bias)])
    (hout : outS.pyTruthy = true) :
    estimateLayerParameters "conv2d" cfg (PyVal.tuple (ds ++ [PyVal.int C])) outS =
      Except.ok (PyVal.int (kh * kw * C * F + if bias then F else 0)) := by
  cases bias <;>
    simp [estimateLayerParameters, hp, hout, getParam, pyLen, pyTruthy_tuple_append, pyTruthy_bool,
      pyIndexLast, pyIndex, PyVal.elems, pyMul_int, pyAdd_int, exc_bind_ok, exc_pure]

theorem estimate_norm_formula (lt : String)
    (hlt : lt = "batch_normalization" ∨ lt = "layer_normalization")
    (cfg : LayerConfig) (inS : PyVal) (hin : inS.pyTruthy = true)
    (es : List PyVal) (M : Int) :
    estimateLayerParameters lt cfg inS (PyVal.tuple (es ++ [PyVal.int M])) =
      Except.ok (PyVal.int (M * 2)) := by
  rcases hlt with h | h <;> subst h <;>
    simp [estimateLayerParameters, hin, getParam, pyTruthy_tuple_append, pyIndexLast,
      PyVal.elems, pyMul_int, exc_bind_ok, exc_pure]

theorem estimate_lstm_formula (cfg : LayerConfig) (ds : List PyVal) (D U : Int)
    (outS : PyVal) (hp : cfg.parameters = [("units", PyVal.int U)])
    (hout : outS.pyTruthy = true) :
    estimateLayerParameters "lstm" cfg (PyVal.tuple (ds ++ [PyVal.int D])) outS =
      Except.ok (PyVal.int (4 * (D * U + U * U + U))) := by
  simp [estimateLayerParameters, hp, hout, getParam, pyLen, pyTruthy_tuple_append, pyTruthy_bool,
    pyIndexLast, PyVal.elems, pyMul_int, pyAdd_int, exc_bind_ok, exc_pure]

theorem estimate_gru_formula (cfg : LayerConfig) (ds : List PyVal) (D U : Int)
    (outS : PyVal) (hp : cfg.parameters = [("units", PyVal.int U)])
    (hout : outS.pyTruthy = true) :
    estimateLayerParameters "gru" cfg (PyVal.tuple (ds ++ [PyVal.int D])) outS =
      Except.ok (PyVal.int (3 * (D * U + U * U + U))) := by
  simp [estimateLayerParameters, hp, hout, getParam, pyLen, pyTruthy_tuple_append, pyTruthy_bool,
    pyIndexLast, PyVal.elems, pyMul_int, pyAdd_int, exc_bind_ok, exc_pure]

theorem estimate_other_zero (lt : String)
    (h : lt ∉ ([ "dense", "conv2d", "conv1d", "batch_normalization",
      "layer_normalization", "lstm", "gru"] : List String))
    (cfg : LayerConfig) (inS outS : PyVal) :
    estimateLayerParameters lt cfg inS outS = Except.ok (PyVal.int 0) := by
  have h1 : lt ≠ "dense" := fun e => h (by simp [e])
  have h2 : lt ≠ "conv2d" := fun e => h (by simp [e])
  have h3 : lt ≠ "conv1d" := fun e => h (by simp [e])
  have h4 : lt ≠ "batch_normalization" := fun e => h (by simp [e])
  have h5 : lt ≠ "layer_normalization" := fun e => h (by simp [e])
  have h6 : lt ≠ "lstm" := fun e => h (by simp [e])
  have h7 : lt ≠ "gru" := fun e => h (by simp [e])
  by_cases htr : (!inS.pyTruthy || !outS.pyTruthy) = true
  · simp [estimateLayerParameters, htr, exc_pure]
  · simp [estimateLayerParameters, htr, h1, h2, h3, h4, h5, h6, h7, exc_pure]

/-- Claim C8: the analyzer estimates per-layer parameter counts by the
closed forms — dense `D·U + U` (bias) / `D·U` (no bias); 2D convolution
`kh·kw·C·F + F` (bias) / `kh·kw·C·F`; batch/layer normalization
`2·(output last dim)`; LSTM `4·(in·U + U² + U)`; GRU `3·(in·U + U² + U)`;
all other types `0` — and a successful analysis reports exactly these
per-layer values in `layer_details`, with `total_parameters` their
running sum. -/
theorem analyze_parameter_estimates :
    (∀ (cfg : LayerConfig) (ds : List PyVal) (D U : Int) (bias : Bool) (outS : PyVal),
      cfg.parameters = [("units", PyVal.int U), ("use_bias", PyVal.bool bias)] →
      outS.pyTruthy = true →
      estimateLayerParameters "dense" cfg (PyVal.tuple (ds ++ [PyVal.int D])) outS =
        Except.ok (PyVal.int (D * U + if bias then U else 0))) ∧
    (∀ (cfg : LayerConfig) (ds : List PyVal) (C F kh kw : Int) (bias : Bool) (outS : PyVal),
      cfg.parameters = [("filters", PyVal.int F),
        ("kernel_size", PyVal.list [PyVal.int kh, PyVal.int kw]),
        ("use_bias", PyVal.bool bias)] →
      outS.pyTruthy = true →
      estimateLayerParameters "conv2d" cfg (PyVal.tuple (ds ++ [PyVal.int C])) outS =
        Except.ok (PyVal.int (kh * kw * C * F + if bias then F else 0))) ∧
    (∀ (lt : String), lt = "batch_normalization" ∨ lt = "layer_normalization" →
      ∀ (cfg : LayerConfig) (inS : PyVal), inS.pyTruthy = true →
      ∀ (es : List PyVal) (M : Int),
      estimateLayerParameters lt cfg inS (PyVal.tuple (es ++ [PyVal.int M])) =
        Except.ok (PyVal.int (M * 2))) ∧
    (∀ (cfg : LayerConfig) (ds : List PyVal) (D U : Int) (outS : PyVal),
      cfg.parameters = [("units", PyVal.int U)] → outS.pyTruthy = true →
      estimateLayerParameters "lstm" cfg (PyVal.tuple (ds ++ [PyVal.int D])) outS =
        Except.ok (PyVal.int (4 * (D * U + U * U + U)))) ∧
    (∀ (cfg : LayerConfig) (ds : List PyVal) (D U : Int) (outS : PyVal),
      cfg.parameters = [("units", PyVal.int U)] → outS.pyTruthy = true →
      estimateLayerParameters "gru" cfg (PyVal.tuple (ds ++ [PyVal.int D])) outS =
        Except.ok (PyVal.int (3 * (D * U + U * U + U)))) ∧
    (∀ (lt : String), lt ∉ ([ "dense", "conv2d", "conv1d", "batch_normalization",
        "layer_normalization", "lstm", "gru"] : List String) →
      ∀ (cfg : LayerConfig) (inS outS : PyVal),
      estimateLayerParameters lt cfg inS outS = Except.ok (PyVal.int 0)) ∧
    (∀ (mc : ModelConfig) (a : Analysis),
      analyzeModelComplexity mc = Except.ok (AnalyzeResult.success a) →
      sumParams a.layerDetails = Except.ok a.totalParameters ∧
      ∀ (lds : List LayerData), mc.layers = Option.some lds →
        a.layerDetails.length = lds.length ∧
        ∀ (j : Nat) (hj : j < lds.length) (hj2 : j < a.layerDetails.length),
          ∃ lt, (lds.get ⟨j, hj⟩).type = Option.some lt ∧
            (a.layerDetails.get ⟨j, hj2⟩).layerType = lt ∧
            estimateLayerParameters lt
              (mkLayerConfig j lt (lds.get ⟨j, hj⟩)
                ((a.layerDetails.get ⟨j, hj2⟩).inputShape))
              ((a.layerDetails.get ⟨j, hj2⟩).inputShape)
              ((a.layerDetails.get ⟨j, hj2⟩).outputShape) =
              Except.ok ((a.layerDetails.get ⟨j, hj2⟩).parameters)) := by
  refine ⟨?_, ?_, ?_, ?_, ?_, ?_, ?_⟩
  · intro cfg ds D U bias outS hp hout
    exact estimate_dense_formula cfg ds D U bias outS hp hout
  · intro cfg ds C F kh kw bias outS hp hout
    exact estimate_conv2d_formula cfg ds C F kh kw bias outS hp hout
  · intro lt hlt cfg inS hin es M
    exact estimate_norm_formula lt hlt cfg inS hin es M
  · intro cfg ds D U outS hp hout
    exact estimate_lstm_formula cfg ds D U outS hp hout
  · intro cfg ds D U outS hp hout
    exact estimate_gru_formula cfg ds D U outS hp hout
  · intro lt h cfg inS outS
    exact estimate_other_zero lt h cfg inS outS
  · intro mc a h
    unfold analyzeModelComplexity at h
    cases hvr : validateModelConfig mc with
    | error e => rw [hvr] at h; exact absurd h (by simp [exc_bind_error])
    | ok vr =>
      rw [hvr] at h
      simp only [exc_bind_ok] at h
      by_cases hvalid : vr.isValid = true
      · simp only [hvalid, Bool.not_true, Bool.false_eq_true, if_false,
          exc_pure] at h
        cases hl : mc.layers with
        | none => rw [hl] at h; simp at h
        | some lds0 =>
          rw [hl] at h
          simp only [] at h
          cases hgo : analyzeGo 0 lds0 (PyVal.int 0) []
              (mc.inputShape.getD PyVal.none) with
          | error e => rw [hgo] at h; simp at h
          | ok triple =>
            obtain ⟨t, dss, o⟩ := triple
            rw [hgo] at h
            simp only [Except.ok.injEq, AnalyzeResult.success.injEq] at h
            obtain ⟨suffix, hds, hlen, hfold, hall⟩ :=
              analyzeGo_spec lds0 0 (PyVal.int 0) [] _ t dss o hgo
            have hsuffix : suffix = dss := by simp [hds]
            subst hsuffix
            subst h
            constructor
            · exact hfold
            · intro lds hlds
              have hldseq : lds = lds0 := by
                injection hlds with he
                exact he.symm
              subst hldseq
              refine ⟨hlen, ?_⟩
              intro j hj hj2
              obtain ⟨lt, ha, hb, _hc, hd⟩ := hall j hj hj2
              refine ⟨lt, ha, hb, ?_⟩
              simpa [Nat.zero_add] using hd
      · simp only [Bool.not_eq_true] at hvalid
        simp only [hvalid, Bool.not_false, if_true, exc_pure] at h
        simp at h

/-- An LSTM(4) → Dense(3) model over declared input shape `[null, 5, 8]`. -/
def cfgLstmDense : ModelConfig :=
  { layers := Option.some [lstmUnitsLayer (PyVal.int 4), denseUnitsLayer (PyVal.int 3)],
    inputShape := Option.some (PyVal.list [PyVal.none, PyVal.int 5, PyVal.int 8]) }

/-- The analysis `analyze` reports for `cfgLstmDense`:
LSTM `4·(8·4 + 4² + 4) = 208`, dense `4·3 + 3 = 15`, total `223`. -/
def analysisLstmDense : Analysis :=
  ⟨PyVal.int 223, 2, PyVal.list [PyVal.none, PyVal.int 5, PyVal.int 8],
   PyVal.tuple [PyVal.none, PyVal.int 3],
   [⟨0, "lstm", PyVal.list [PyVal.none, PyVal.int 5, PyVal.int 8],
      PyVal.tuple [PyVal.none, PyVal.int 4], PyVal.int 208, PyVal.bool true⟩,
    ⟨1, "dense", PyVal.tuple [PyVal.none, PyVal.int 4],
      PyVal.tuple [PyVal.none, PyVal.int 3], PyVal.int 15, PyVal.bool true⟩]⟩

/-- Witness for C8: the dense closed form at `D=4, U=10`, bias on, and the
reported total of the concrete LSTM→Dense analysis as the fold of its
per-layer counts. -/
theorem analyze_parameter_estimates_witness :
    estimateLayerParameters "dense"
        { layerType := "dense", layerId := "l",
          parameters := [("units", PyVal.int 10), ("use_bias", PyVal.bool true)] }
        (PyVal.tuple ([PyVal.none] ++ [PyVal.int 4])) (PyVal.tuple [PyVal.int 1]) =
      Except.ok (PyVal.int (4 * 10 + if true then 10 else 0)) ∧
    analyzeModelComplexity cfgLstmDense =
      Except.ok (AnalyzeResult.success analysisLstmDense) ∧
    sumParams analysisLstmDense.layerDetails =
      Except.ok analysisLstmDense.totalParameters :=
  ⟨analyze_parameter_estimates.1
      { layerType := "dense", layerId := "l",
        parameters := [("units", PyVal.int 10), ("use_bias", PyVal.bool true)] }
      [PyVal.none] 4 10 true (PyVal.tuple [PyVal.int 1]) rfl rfl,
   rfl,
   (analyze_parameter_estimates.2.2.2.2.2.2 cfgLstmDense analysisLstmDense rfl).1⟩

/-- None of the catalog's `validate_config` implementations reads the
input shape carried by the layer config: they validate parameters only. -/
theorem validateConfig_shape_independent (lt : String) (impl : LayerImpl)
    (h : getLayer lt = Option.some impl) (i : Nat) (ld : LayerData) (s : PyVal) :
    impl.validateConfig (mkLayerConfig i lt ld s) =
      impl.validateConfig (mkLayerConfig i lt ld PyVal.none) := by
  unfold getLayer at h
  split at h
  all_goals first
    | (injection h with he; subst he; rfl)
    | exact Option.noConfusion h

/-- One validation step only appends to the three diagnostic lists. -/
theorem validateLayerStep_decomp (i : Nat) (ld : LayerData) (st st' : LoopState)
    (h : validateLayerStep i ld st = Except.ok st') :
    ∃ es ws ss cs, st' = ⟨st.errors ++ es, st.warnings ++ ws,
      st.suggestions ++ ss, cs⟩ := by
  unfold validateLayerStep at h
  cases hty : ld.type with
  | none =>
    rw [hty] at h
    simp only [] at h
    injection h with h
    exact ⟨[s!"第{i+1}层缺少\x27type\x27字段"], [], [], st.currentShape,
      by rw [← h] <;> (cases st; simp)⟩
  | some lt =>
    rw [hty] at h
    simp only [] at h
    cases hgl : getLayer lt with
    | none =>
      rw [hgl] at h
      simp only [] at h
      injection h with h
      exact ⟨[s!"第{i+1}层: 未知的层类型 \x27{lt}\x27"], [], [], st.currentShape,
        by rw [← h] <;> (cases st; simp)⟩
    | some impl =>
      rw [hgl] at h
      simp only [] at h
      obtain ⟨vr, hvr, h⟩ := exc_bind_eq_ok h
      by_cases htr : st.currentShape.pyTruthy = true
      · rw [if_pos htr] at h
        cases hcs : impl.calculateOutputShape st.currentShape
            (mkLayerConfig i lt ld st.currentShape) with
        | ok s =>
          rw [hcs] at h
          injection h with h
          exact ⟨(if !vr.isValid then vr.errors.map (tagLayer i lt) else []),
            vr.warnings.map (tagLayer i lt), vr.suggestions.map (tagLayer i lt),
            s, by rw [← h] <;> (cases st; simp)⟩
        | error e =>
          rw [hcs] at h
          injection h with h
          exact ⟨(if !vr.isValid then vr.errors.map (tagLayer i lt) else []) ++
              [s!"第{i+1}层({lt}): 形状计算错误 - {e}"],
            vr.warnings.map (tagLayer i lt), vr.suggestions.map (tagLayer i lt),
            PyVal.none,
            by rw [← h] <;> (cases st; simp)⟩
      · rw [if_neg htr] at h
        injection h with h
        exact ⟨(if !vr.isValid then vr.errors.map (tagLayer i lt) else []),
          vr.warnings.map (tagLayer i lt), vr.suggestions.map (tagLayer i lt),
          st.currentShape, by rw [← h] <;> (cases st; simp)⟩

/-- One validation step records the per-layer diagnostics of its layer:
errors (when the per-layer result is flagged invalid), warnings and
suggestions, each under the layer's index/type tag. -/
theorem validateLayerStep_diag (i : Nat) (ld : LayerData) (st st' : LoopState)
    (lt : String) (impl : LayerImpl) (vr : ValidationResult)
    (hty : ld.type = Option.some lt) (hgl : getLayer lt = Option.some impl)
    (hvc : impl.validateConfig (mkLayerConfig i lt ld PyVal.none) = Except.ok vr)
    (h : validateLayerStep i ld st = Except.ok st') :
    (vr.isValid = false → ∀ e ∈ vr.errors, tagLayer i lt e ∈ st'.errors) ∧
    (∀ w ∈ vr.warnings, tagLayer i lt w ∈ st'.warnings) ∧
    (∀ s ∈ vr.suggestions, tagLayer i lt s ∈ st'.suggestions) := by
  unfold validateLayerStep at h
  rw [hty] at h
  simp only [] at h
  rw [hgl] at h
  simp only [] at h
  obtain ⟨vr', hvr', h⟩ := exc_bind_eq_ok h
  rw [validateConfig_shape_independent lt impl hgl i ld st.currentShape, hvc] at hvr'
  injection hvr' with hvr'
  subst hvr'
  by_cases htr : st.currentShape.pyTruthy = true
  · rw [if_pos htr] at h
    cases hcs : impl.calculateOutputShape st.currentShape
        (mkLayerConfig i lt ld st.currentShape) with
    | ok s =>
      rw [hcs] at h
      injection h with h
      subst h
      refine ⟨?_, ?_, ?_⟩
      · intro hinv e he
        apply List.mem_append_right
        rw [if_pos (show (!vr.isValid) = true by rw [hinv]; rfl)]
        exact List.mem_map_of_mem (tagLayer i lt) he
      · intro w hw
        exact List.mem_append_right _ (List.mem_map_of_mem (tagLayer i lt) hw)
      · intro s hs
        exact List.mem_append_right _ (List.mem_map_of_mem (tagLayer i lt) hs)
    | error e =>
      rw [hcs] at h
      injection h with h
      subst h
      refine ⟨?_, ?_, ?_⟩
      · intro hinv e' he
        apply List.mem_append_left
        apply List.mem_append_right
        rw [if_pos (show (!vr.isValid) = true by rw [hinv]; rfl)]
        exact List.mem_map_of_mem (tagLayer i lt) he
      · intro w hw
        exact List.mem_append_right _ (List.mem_map_of_mem (tagLayer i lt) hw)
      · intro s hs
        exact List.mem_append_right _ (List.mem_map_of_mem (tagLayer i lt) hs)
  · rw [if_neg htr] at h
    injection h with h
    subst h
    refine ⟨?_, ?_, ?_⟩
    · intro hinv e he
      apply List.mem_append_right
      rw [if_pos (show (!vr.isValid) = true by rw [hinv]; rfl)]
      exact List.mem_map_of_mem (tagLayer i lt) he
    · intro w hw
      exact List.mem_append_right _ (List.mem_map_of_mem (tagLayer i lt) hw)
    · intro s hs
      exact List.mem_append_right _ (List.mem_map_of_mem (tagLayer i lt) hs)

/-- The validation loop never removes a collected diagnostic. -/
theorem validateLayersGo_mono (lds : List LayerData) :
    ∀ (i : Nat) (st out : LoopState), validateLayersGo i lds st = Except.ok out →
      st.errors ⊆ out.errors ∧ st.warnings ⊆ out.warnings ∧
      st.suggestions ⊆ out.suggestions := by
  induction lds with
  | nil =>
    intro i st out h
    simp only [validateLayersGo] at h
    injection h with h
    subst h
    exact ⟨fun _ hx => hx, fun _ hx => hx, fun _ hx => hx⟩
  | cons ld rest ih =>
    intro i st out h
    simp only [validateLayersGo] at h
    obtain ⟨st₁, hstep, h⟩ := exc_bind_eq_ok h
    obtain ⟨es, ws, ss, cs, hdec⟩ := validateLayerStep_decomp i ld st st₁ hstep
    obtain ⟨h1, h2, h3⟩ := ih (i + 1) st₁ out h
    subst hdec
    exact ⟨fun x hx => h1 (List.mem_append_left es hx),
      fun x hx => h2 (List.mem_append_left ws hx),
      fun x hx => h3 (List.mem_append_left ss hx)⟩

/-- Each layer's per-layer diagnostics reach the loop's final state. -/
theorem validateLayersGo_diag (lds : List LayerData) :
    ∀ (i : Nat) (st out : LoopState), validateLayersGo i lds st = Except.ok out →
      ∀ (j : Nat) (ld : LayerData), lds.get? j = Option.some ld →
      ∀ (lt : String) (impl : LayerImpl) (vr : ValidationResult),
        ld.type = Option.some lt → getLayer lt = Option.some impl →
        impl.validateConfig (mkLayerConfig (i + j) lt ld PyVal.none) = Except.ok vr →
        (vr.isValid = false → ∀ e ∈ vr.errors, tagLayer (i + j) lt e ∈ out.errors) ∧
        (∀ w ∈ vr.warnings, tagLayer (i + j) lt w ∈ out.warnings) ∧
        (∀ s ∈ vr.suggestions, tagLayer (i + j) lt s ∈ out.suggestions) := by
  induction lds with
  | nil =>
    intro i st out _ j ld hld
    exact absurd hld (by simp)
  | cons ld0 rest ih =>
    intro i st out h j ld hld lt impl vr hty hgl hvc
    simp only [validateLayersGo] at h
    obtain ⟨st₁, hstep, h⟩ := exc_bind_eq_ok h
    cases j with
    | zero =>
      injection hld with hld
      subst hld
      have hvc' : impl.validateConfig (mkLayerConfig i lt ld0 PyVal.none) =
          Except.ok vr := by
        have hzero : i + 0 = i := Nat.add_zero i
        rw [hzero] at hvc
        exact hvc
      obtain ⟨d1, d2, d3⟩ :=
        validateLayerStep_diag i ld0 st st₁ lt impl vr hty hgl hvc' hstep
      obtain ⟨m1, m2, m3⟩ := validateLayersGo_mono rest (i + 1) st₁ out h
      rw [Nat.add_zero]
      exact ⟨fun hinv e he => m1 (d1 hinv e he),
        fun w hw => m2 (d2 w hw), fun s hs => m3 (d3 s hs)⟩
    | succ j' =>
      have heq : i + (j' + 1) = (i + 1) + j' := by omega
      rw [heq] at hvc ⊢
      exact ih (i + 1) st₁ out h j' ld (by simpa using hld) lt impl vr hty hgl hvc

/-- Claim C3 as amended: whenever `validate` returns a result (no
constraint-check exception was raised), it contains every per-layer
diagnostic under the `第{i+1}层({type})` tag — warnings and suggestions
always, and errors whenever the per-layer result is flagged invalid
(errors appended by layer-specific post-checks to an already-valid
result are dropped, see the counterexample) — independently of errors in
other layers; only shape propagation stops after a shape failure. -/
theorem validate_accumulates_diagnostics (mc : ModelConfig)
    (layers : List LayerData) (i : Nat) (ld : LayerData) (lt : String)
    (impl : LayerImpl) (vr : ValidationResult) (r : ValidationResult)
    (hl : mc.layers = Option.some layers)
    (hld : layers.get? i = Option.some ld)
    (hty : ld.type = Option.some lt)
    (hgl : getLayer lt = Option.some impl)
    (hvc : impl.validateConfig (mkLayerConfig i lt ld PyVal.none) = Except.ok vr)
    (hv : validateModelConfig mc = Except.ok r) :
    (vr.isValid = false → ∀ e ∈ vr.errors, tagLayer i lt e ∈ r.errors) ∧
    (∀ w ∈ vr.warnings, tagLayer i lt w ∈ r.warnings) ∧
    (∀ s ∈ vr.suggestions, tagLayer i lt s ∈ r.suggestions) := by
  unfold validateModelConfig at hv
  rw [hl] at hv
  simp only [] at hv
  by_cases hlen : layers.length = 0
  · rw [List.length_eq_zero] at hlen
    subst hlen
    exact absurd hld (by simp)
  · rw [if_neg hlen] at hv
    obtain ⟨st, hloop, hv⟩ := exc_bind_eq_ok hv
    have hvc0 : impl.validateConfig (mkLayerConfig (0 + i) lt ld PyVal.none) =
        Except.ok vr := by rw [Nat.zero_add]; exact hvc
    obtain ⟨d1, d2, d3⟩ := validateLayersGo_diag layers 0
      ⟨[], [], [], mc.inputShape.getD PyVal.none⟩ st hloop i ld hld lt impl vr
      hty hgl hvc0
    rw [Nat.zero_add] at d1 d2 d3
    cases r with
    | mk rv re rw0 rs0 =>
      simp only [exc_pure, Except.ok.injEq, ValidationResult.mk.injEq] at hv
      obtain ⟨_hv1, hv2, hv3, hv4⟩ := hv
      subst hv2
      subst hv3
      subst hv4
      refine ⟨d1, ?_, ?_⟩
      · intro w hw
        split
        · exact List.mem_append_left _ (d2 w hw)
        · exact d2 w hw
      · intro s hs
        show tagLayer i lt s ∈
          (if st.errors.isEmpty &&
              !(([ "dense", "softmax", "sigmoid"] : List String).contains
                (match layers.getLast? with
                 | Option.some l => l.type.getD ""
                 | Option.none => "")) then
            st.suggestions ++ ["建议在模型末尾添加适当的输出层"]
          else st.suggestions)
        split
        · exact List.mem_append_left _ (d3 s hs)
        · exact d3 s hs

/-- A dense layer entry with no `units` and one unknown parameter. -/
def ldNoUnits : LayerData :=
  { type := Option.some "dense", parameters := Option.some [("foo", PyVal.int 1)] }

/-- Model with the single layer `ldNoUnits`. -/
def cfgDenseNoUnits : ModelConfig := { layers := Option.some [ldNoUnits] }

/-- Witness for the amended C3: the missing-required-parameter error and
the unknown-parameter warning of the dense layer both appear, tagged, in
the pipeline result. -/
theorem validate_accumulates_witness :
    validateModelConfig cfgDenseNoUnits =
      Except.ok ⟨false, ["第1层(dense): 缺少必需参数: units"],
        ["第1层(dense): 未知参数: foo"], []⟩ ∧
    tagLayer 0 "dense" "缺少必需参数: units" ∈
      (["第1层(dense): 缺少必需参数: units"] : List String) ∧
    tagLayer 0 "dense" "未知参数: foo" ∈
      (["第1层(dense): 未知参数: foo"] : List String) :=
  ⟨rfl,
   (validate_accumulates_diagnostics cfgDenseNoUnits [ldNoUnits] 0 ldNoUnits
      "dense" denseLayer ⟨false, ["缺少必需参数: units"], ["未知参数: foo"], []⟩
      ⟨false, ["第1层(dense): 缺少必需参数: units"],
        ["第1层(dense): 未知参数: foo"], []⟩
      rfl rfl rfl rfl rfl rfl).1 rfl "缺少必需参数: units"
      (List.mem_singleton.mpr rfl),
   (validate_accumulates_diagnostics cfgDenseNoUnits [ldNoUnits] 0 ldNoUnits
      "dense" denseLayer ⟨false, ["缺少必需参数: units"], ["未知参数: foo"], []⟩
      ⟨false, ["第1层(dense): 缺少必需参数: units"],
        ["第1层(dense): 未知参数: foo"], []⟩
      rfl rfl rfl rfl rfl rfl).2.1 "未知参数: foo"
      (List.mem_singleton.mpr rfl)⟩

end Modelsee
